import Mathlib

/-!
Verification development for the ASD spectroradiometer file codec
(`SpectInstrulment/asd_Spect/asdFileHandle.py`, with the sibling development
copy `fileIO/SpectInstrulment/ASD/dev/__test__asdFileHandle_2.py`).

The Python code is shallowly embedded:
* byte buffers become `List Nat` (one entry per byte, little-endian fields),
* machine integers become `Nat`/`Int` with explicit range checks where
  `struct.pack` would raise,
* spectral sample values become exact rationals (`ℚ`),
* IEEE-754 fields that the code merely transports (never computes with at the
  byte level) are carried as their raw little-endian byte quadruples /
  octuples: `struct.unpack` followed by `struct.pack` is the identity on
  those bit patterns,
* fallible Python paths (exceptions, `None` returns) become `Option` or
  `Except` results.

Section of the file: definitions first (primitive codec, metadata codec,
section codecs, read/write drivers, spectral post-processing), then the
theorems about the claims.
-/

/-! ## Python-style numeric helpers -/

/-- Python `int(x)` on a float/rational truncates toward zero. -/
def pyTrunc (q : ℚ) : ℤ :=
  if 0 ≤ q then ⌊q⌋ else ⌈q⌉

/-- Resolve a (possibly negative) Python slice bound against a list of length
`len`: negative indices count from the end, and the result is clamped into
`[0, len]`, exactly as NumPy/Python slicing does. -/
def pySliceIdx (len : Nat) (i : ℤ) : Nat :=
  if i < 0 then (max 0 ((len : ℤ) + i)).toNat else min i.toNat len

/-- Model of `np.arange(start, stop, step)` over exact rationals: `step = 0`
raises `ZeroDivisionError` (modelled as `none`); otherwise the length is
`max 0 ⌈(stop - start) / step⌉` and element `i` is `start + i * step`. -/
def pyArangeQ (start stop step : ℚ) : Option (List ℚ) :=
  if step = 0 then none
  else some ((List.range (⌈(stop - start) / step⌉).toNat).map
    (fun (i : ℕ) => start + (i : ℚ) * step))

/-! ## Spectral normalisation (`__normalise_spectrum`)

The Python function copies the input array and performs three NumPy slice
assignments, every right-hand side drawn from the unmodified source array:

  res[:s1]   = spec[:s1]   / metadata.intergrationTime_ms
  res[s1:s2] = spec[s1:s2] * metadata.swir1Gain / 2048
  res[s2:]   = spec[s2:]   * metadata.swir1Gain / 2048   -- core file, line 921
  (the development copy, line 1357, uses swir2Gain in the third assignment)

with `s1 = int(splice1_wavelength)`, `s2 = int(splice2_wavelength)`.
Because the three assignments happen in this order and all read from `spec`,
the final channel `i` holds the third segment value when `a2 ≤ i`, otherwise
the second when `a1 ≤ i`, otherwise the first, where `a1`, `a2` are the
slice bounds resolved against the list length.  The input list is never
written to (NumPy `copy`), so non-mutation is inherent in the model. -/

/-- `ASDFile.__normalise_spectrum` from `asd_Spect/asdFileHandle.py`
(lines 911-922).  Note the third segment is scaled by `swir1Gain`. -/
def normalise_spectrum_core (spec : List ℚ)
    (splice1 splice2 intergrationTime_ms swir1Gain swir2Gain : ℚ) : List ℚ :=
  let a1 := pySliceIdx spec.length (pyTrunc splice1)
  let a2 := pySliceIdx spec.length (pyTrunc splice2)
  spec.mapIdx (fun i x =>
    if a2 ≤ i then x * swir1Gain / 2048
    else if a1 ≤ i then x * swir1Gain / 2048
    else x / intergrationTime_ms)

/-- `ASDFile.__normalise_spectrum` from the development copy
`__test__asdFileHandle_2.py` (lines 1350-1358), which scales the third
segment by `swir2Gain`. -/
def normalise_spectrum_dev (spec : List ℚ)
    (splice1 splice2 intergrationTime_ms swir1Gain swir2Gain : ℚ) : List ℚ :=
  let a1 := pySliceIdx spec.length (pyTrunc splice1)
  let a2 := pySliceIdx spec.length (pyTrunc splice2)
  spec.mapIdx (fun i x =>
    if a2 ≤ i then x * swir2Gain / 2048
    else if a1 ≤ i then x * swir1Gain / 2048
    else x / intergrationTime_ms)

/-! ## Radiance accessors

Value-level model of the NumPy expressions in the two radiance accessors.
Operands of the products are of four kinds: NumPy arrays, the Python value
`None`, plain numbers, and the `spectrumData` / `referenceData` namedtuples
`(spectra, byteStream, byteStreamLength)`.  NumPy multiplication of an array
with such a three-field inhomogeneous namedtuple raises (the tuple cannot be
converted to a numeric array), and any arithmetic involving `None` raises
`TypeError`; both are modelled as `none`. -/

inductive PyV : Type
  | arr (xs : List ℚ)
  | rec3
  | num (q : ℚ)
  | pynone
deriving DecidableEq, Repr

/-- NumPy-style multiplication on the operand kinds above.  Array-array
multiplication is elementwise and requires equal shapes; multiplying by the
three-field namedtuple (`rec3`) or by Python `None` raises. -/
def npMul : PyV → PyV → Option PyV
  | PyV.num a, PyV.num b => some (PyV.num (a * b))
  | PyV.arr xs, PyV.num a => some (PyV.arr (xs.map (fun x => x * a)))
  | PyV.num a, PyV.arr xs => some (PyV.arr (xs.map (fun x => a * x)))
  | PyV.arr xs, PyV.arr ys =>
      if xs.length = ys.length then some (PyV.arr (List.zipWith (· * ·) xs ys)) else none
  | _, _ => none

/-- NumPy-style division on the same operand kinds (exact rationals; a zero
denominator is outside every use below). -/
def npDiv : PyV → PyV → Option PyV
  | PyV.num a, PyV.num b => some (PyV.num (a / b))
  | PyV.arr xs, PyV.num a => some (PyV.arr (xs.map (fun x => x / a)))
  | PyV.num a, PyV.arr xs => some (PyV.arr (xs.map (fun x => a / x)))
  | PyV.arr xs, PyV.arr ys =>
      if xs.length = ys.length then some (PyV.arr (List.zipWith (· / ·) xs ys)) else none
  | _, _ => none

/-- Left fold of `npMul` over a product chain, propagating a raised error. -/
def npProd (x : PyV) (ys : List PyV) : Option PyV :=
  ys.foldl (fun acc y => acc.bind (fun a => npMul a y)) (some x)

/-- Calibration header as the radiance accessors see it: only the entry
count matters there. -/
structure CalibHdrV where
  calibrationNum : Int
deriving DecidableEq, Repr

/-- Value-level state for the development-copy `radiance` property
(`__test__asdFileHandle_2.py`, lines 1334-1348).  `spectrumData` and
`referenceData` are the `(spectra, byteStream, byteStreamLength)`
namedtuples; only their presence matters to the accessor, because the
product multiplies the namedtuples themselves. -/
structure DevRadSt where
  asdFileVersion : Int
  dataType : Int
  intergrationTime_ms : ℚ
  calibrationHeader : Option CalibHdrV
  calibrationSeriesABS : Option (List ℚ)
  calibrationSeriesBSE : Option (List ℚ)
  calibrationSeriesLMP : Option (List ℚ)
  calibrationSeriesFO : Option (List ℚ)
  referenceDataPresent : Bool
  spectrumDataPresent : Bool

/-- Operand for a calibration slot: a NumPy array when populated, Python
`None` when not. -/
def slotOperand : Option (List ℚ) → PyV
  | some xs => PyV.arr xs
  | none => PyV.pynone

/-- Operand for `self.referenceData` / `self.spectrumData` inside the dev
radiance product: the namedtuple itself when set (line 1340 multiplies the
record, not its `.spectra` array), Python `None` when unset. -/
def recOperand : Bool → PyV
  | true => PyV.rec3
  | false => PyV.pynone

/-- Product of dev `radiance` line 1340 (the `ABS`/`BSE` branch):
`LMP * referenceData * spectrumData * intergrationTime_ms /
(ABS * 500 * 544 * BSE * pi)`, with `piv` standing for the float constant
`np.pi` (the outcome does not depend on its value). -/
def devRadianceExpr1 (piv : ℚ) (st : DevRadSt) : Option PyV := do
  let numer ← npProd (slotOperand st.calibrationSeriesLMP)
    [recOperand st.referenceDataPresent, recOperand st.spectrumDataPresent,
     PyV.num st.intergrationTime_ms]
  let denom ← npProd (slotOperand st.calibrationSeriesABS)
    [PyV.num 500, PyV.num 544, slotOperand st.calibrationSeriesBSE, PyV.num piv]
  npDiv numer denom

/-- Product of dev `radiance` line 1342 (the `BSE`/`FO` fallback branch):
same numerator, denominator `BSE * 500 * 544 * FO * pi`. -/
def devRadianceExpr2 (piv : ℚ) (st : DevRadSt) : Option PyV := do
  let numer ← npProd (slotOperand st.calibrationSeriesLMP)
    [recOperand st.referenceDataPresent, recOperand st.spectrumDataPresent,
     PyV.num st.intergrationTime_ms]
  let denom ← npProd (slotOperand st.calibrationSeriesBSE)
    [PyV.num 500, PyV.num 544, slotOperand st.calibrationSeriesFO, PyV.num piv]
  npDiv numer denom

/-- Development-copy `radiance` property (`__test__asdFileHandle_2.py`,
lines 1333-1348).  Outcomes: `Except.error ()` models an uncaught
`NameError` at the trailing `return radiance` (reached when the version
gate or a guard leaves `radiance` unbound), `.ok none` models the property
returning Python `None` (the `except` clause, entered when the product
raises or when `calibrationHeader` is `None`), and `.ok (some v)` would be
an actual radiance array.  The first guard (line 1339) tests
`ABS is not None and LMP is not None and LMP is not None` — `LMP` twice,
`BSE` never, as in the source. -/
def radiance_dev (piv : ℚ) (st : DevRadSt) : Except Unit (Option (List ℚ)) :=
  if 7 ≤ st.asdFileVersion then
    match st.calibrationHeader with
    | none => Except.ok none
    | some hdr =>
      if 3 ≤ hdr.calibrationNum then
        if st.calibrationSeriesABS.isSome ∧ st.calibrationSeriesLMP.isSome
            ∧ st.calibrationSeriesLMP.isSome then
          match devRadianceExpr1 piv st with
          | some (PyV.arr v) => Except.ok (some v)
          | some _ => Except.ok (some [])
          | none => Except.ok none
        else if st.calibrationSeriesBSE.isSome ∧ st.calibrationSeriesLMP.isSome
            ∧ st.calibrationSeriesFO.isSome then
          match devRadianceExpr2 piv st with
          | some (PyV.arr v) => Except.ok (some v)
          | some _ => Except.ok (some [])
          | none => Except.ok none
        else Except.error ()
      else Except.error ()
  else Except.error ()

/-- Value-level state for the core `get_radiance` accessor
(`asd_Spect/asdFileHandle.py`, lines 901-909). -/
structure CoreRadSt where
  dataType : Int
  intergrationTime_ms : ℚ
  spectrumDataPresent : Bool

/-- The attribute `calibrationSeries_lamp` referenced by core
`get_radiance` is never assigned anywhere in the class (the constructor
initialises `calibrationSeriesLMP` and friends instead), so the lookup
falls through to the catch-all `__getattr__` (lines 876-888), whose final
`else` returns Python `None`. -/
def coreLookupLamp (_st : CoreRadSt) : PyV := PyV.pynone

/-- Likewise for `calibrationSeries_base`: never assigned, resolved to
`None` by the catch-all `__getattr__`. -/
def coreLookupBase (_st : CoreRadSt) : PyV := PyV.pynone

/-- Likewise for `self.reference`: the class has `referenceData`, not
`reference`; `__getattr__` maps `'ref'` (not `'reference'`) specially, so
`reference` falls to the final `else` and is `None`. -/
def coreLookupReference (_st : CoreRadSt) : PyV := PyV.pynone

inductive RadianceErr : Type
  | noneOperand
  | wrongType
  | indexError
deriving DecidableEq, Repr

/-- Core `ASDFile.get_radiance` (`asd_Spect/asdFileHandle.py`, lines
901-909).  `spectra_type[self.metadata.dataType]` is a 9-tuple lookup, so
it raises `IndexError` outside `[-9, 8]` and equals `'RAD'` exactly for
`dataType ∈ {2, -7}`; otherwise the accessor raises `TypeError`
explicitly.  In the `'RAD'` branch the product
`calibrationSeries_lamp * reference * spectrumData * intergrationTime_ms /
(calibrationSeries_base * 500 * 544 * np.pi)` starts from two `None`
operands (see `coreLookupLamp`), so the first multiplication raises an
uncaught `TypeError`; there is no `try` in this method. -/
def get_radiance_core (piv : ℚ) (st : CoreRadSt) : Except RadianceErr (List ℚ) :=
  if st.dataType = 2 ∨ st.dataType = -7 then
    let numer := npProd (coreLookupLamp st)
      [coreLookupReference st, recOperand st.spectrumDataPresent,
       PyV.num st.intergrationTime_ms]
    let denom := npProd (coreLookupBase st) [PyV.num 500, PyV.num 544, PyV.num piv]
    match numer.bind (fun a => denom.bind (fun b => npDiv a b)) with
    | some (PyV.arr v) => Except.ok v
    | _ => Except.error RadianceErr.noneOperand
  else if -9 ≤ st.dataType ∧ st.dataType ≤ 8 then Except.error RadianceErr.wrongType
  else Except.error RadianceErr.indexError

/-! ## Field update and the derived wavelength axis (`ASDFile.update`)

`update(field_name, new_value)` replaces one metadata field (when metadata
is present) and, when the field is one of `channel1Wavelength`, `channels`,
`wavelengthStep`, recomputes
`self.__wavelengths = np.arange(c1, c1 + channels * step, step)`.
The recomputation runs even when `self.metadata is None` (the membership
test is outside the `if`), in which case the attribute access raises; and
`np.arange` itself raises when `step` is zero.  Raising paths are `none`.
The `channels` field comes off disk through the unsigned 16-bit `H` format,
so it is modelled as `Nat`. -/

structure MetaW where
  channel1Wavelength : ℚ
  wavelengthStep : ℚ
  channels : Nat
deriving DecidableEq, Repr

structure WaveSt where
  metadata : Option MetaW
  wavelengths : Option (List ℚ)
deriving DecidableEq, Repr

/-- The update requests relevant to the wavelength axis, plus a stand-in
for an update of any other existing metadata field (which `update` replaces
without recomputing the axis; unknown field names raise `ValueError` and
are outside this model). -/
inductive WUpd : Type
  | channel1Wavelength (x : ℚ)
  | wavelengthStep (x : ℚ)
  | channels (n : Nat)
  | otherField
deriving DecidableEq, Repr

def applyWUpd (md : MetaW) : WUpd → MetaW
  | WUpd.channel1Wavelength x => { md with channel1Wavelength := x }
  | WUpd.wavelengthStep x => { md with wavelengthStep := x }
  | WUpd.channels n => { md with channels := n }
  | WUpd.otherField => md

/-- Whether the field name is in `['channel1Wavelength', 'channels',
'wavelengthStep']` (line 161). -/
def wuRelevant : WUpd → Bool
  | WUpd.otherField => false
  | _ => true

/-- `ASDFile.update` (`asd_Spect/asdFileHandle.py`, lines 154-166). -/
def ASDupdate (st : WaveSt) (u : WUpd) : Option WaveSt :=
  match st.metadata with
  | none =>
      if wuRelevant u then none
      else some st
  | some md =>
      let md' := applyWUpd md u
      if wuRelevant u then
        (pyArangeQ md'.channel1Wavelength
          (md'.channel1Wavelength + (md'.channels : ℚ) * md'.wavelengthStep)
          md'.wavelengthStep).map
          (fun ax => { metadata := some md', wavelengths := some ax })
      else some { st with metadata := some md' }

/-! ## Byte-level primitives

Byte buffers are `List Nat` with one entry per byte.  `struct.unpack_from`
demands that the requested span fit inside the buffer (else `struct.error`),
and `struct.pack` rejects out-of-range integers; both become `Option`. -/

/-- Value of a little-endian byte list. -/
def leU : List Nat → Nat
  | [] => 0
  | b :: t => b + 256 * leU t

/-- Little-endian bytes of a value, fixed width `w`. -/
def bytesLE : Nat → Nat → List Nat
  | 0, _ => []
  | w + 1, v => v % 256 :: bytesLE w (v / 256)

/-- Two's-complement reading of a `w`-byte unsigned value. -/
def toSigned (w v : Nat) : Int :=
  if v < 2 ^ (8 * w - 1) then (v : Int) else (v : Int) - 2 ^ (8 * w)

/-- `struct.pack` of a `w`-byte unsigned integer. -/
def packU (w v : Nat) : Option (List Nat) :=
  if v < 2 ^ (8 * w) then some (bytesLE w v) else none

/-- `struct.pack` of a `w`-byte signed integer. -/
def packS (w : Nat) (i : Int) : Option (List Nat) :=
  if -(2 ^ (8 * w - 1)) ≤ i ∧ i < 2 ^ (8 * w - 1) then
    some (bytesLE w ((i % (2 ^ (8 * w) : Int)).toNat))
  else none

/-- `struct.unpack_from` span extraction: `n` bytes at `off`, requiring the
span to lie inside the buffer. -/
def readBytes (s : List Nat) (off n : Nat) : Option (List Nat) :=
  if off + n ≤ s.length then some ((s.drop off).take n) else none

/-- Unsigned little-endian field read. -/
def readUN (w : Nat) (s : List Nat) (off : Nat) : Option Nat :=
  (readBytes s off w).map leU

/-- Signed little-endian field read. -/
def readSN (w : Nat) (s : List Nat) (off : Nat) : Option Int :=
  (readBytes s off w).map (fun bs => toSigned w (leU bs))

/-- Python `bytes.strip(b'\x00')`: removes NUL bytes from both ends. -/
def stripNulls (bs : List Nat) : List Nat :=
  ((bs.dropWhile (· == 0)).reverse.dropWhile (· == 0)).reverse

/-- Python `bytes.ljust(n, b'\x00')` followed by packing with an `ns` format
(`struct.pack` silently truncates longer input): right-pad with NULs to
length `n`, then take the first `n` bytes. -/
def packFixed (n : Nat) (bs : List Nat) : List Nat :=
  (bs ++ List.replicate (n - bs.length) 0).take n

/-- Byte-level UTF-8 validity (RFC 3629), used where the Python code calls
`bytes.decode('utf-8')` with strict error handling. -/
def utf8Valid : List Nat → Bool
  | [] => true
  | b :: t =>
      if b ≤ 127 then utf8Valid t
      else if 194 ≤ b ∧ b ≤ 223 then
        match t with
        | c :: t2 => decide (128 ≤ c ∧ c ≤ 191) && utf8Valid t2
        | [] => false
      else if 224 ≤ b ∧ b ≤ 239 then
        match t with
        | c1 :: c2 :: t2 =>
            (if b = 224 then decide (160 ≤ c1 ∧ c1 ≤ 191)
             else if b = 237 then decide (128 ≤ c1 ∧ c1 ≤ 159)
             else decide (128 ≤ c1 ∧ c1 ≤ 191))
              && decide (128 ≤ c2 ∧ c2 ≤ 191) && utf8Valid t2
        | _ => false
      else if 240 ≤ b ∧ b ≤ 244 then
        match t with
        | c1 :: c2 :: c3 :: t2 =>
            (if b = 240 then decide (144 ≤ c1 ∧ c1 ≤ 191)
             else if b = 244 then decide (128 ≤ c1 ∧ c1 ≤ 143)
             else decide (128 ≤ c1 ∧ c1 ≤ 191))
              && decide (128 ≤ c2 ∧ c2 ≤ 191) && decide (128 ≤ c3 ∧ c3 ≤ 191)
              && utf8Valid t2
        | _ => false
      else false

/-! ## Calendar timestamps (`__parse_ASDFilewhen` / `__wrap_ASDFilewhen`)

`datetime.datetime` of CPython: proleptic Gregorian calendar, year in
`[1, 9999]`, and the constructor validates every component (seconds `> 59`
are rejected even though the on-disk field documents `[0, 61]`). -/

structure PyDT where
  year : Nat
  month : Nat
  day : Nat
  hour : Nat
  minute : Nat
  second : Nat
deriving DecidableEq, Repr

def isLeapYear (y : Nat) : Bool :=
  decide ((y % 4 = 0 ∧ y % 100 ≠ 0) ∨ y % 400 = 0)

def daysInMonth (leap : Bool) (m : Nat) : Nat :=
  match m with
  | 1 => 31 | 2 => if leap then 29 else 28 | 3 => 31 | 4 => 30 | 5 => 31
  | 6 => 30 | 7 => 31 | 8 => 31 | 9 => 30 | 10 => 31 | 11 => 30 | 12 => 31
  | _ => 0

/-- Days in the months strictly before month `m` (1-based). -/
def daysBeforeMonth (leap : Bool) (m : Nat) : Nat :=
  let base :=
    match m with
    | 1 => 0 | 2 => 31 | 3 => 59 | 4 => 90 | 5 => 120 | 6 => 151 | 7 => 181
    | 8 => 212 | 9 => 243 | 10 => 273 | 11 => 304 | 12 => 334 | _ => 0
  if leap ∧ 3 ≤ m then base + 1 else base

/-- The CPython `datetime.datetime` constructor with its range validation. -/
def mkPyDatetime (y mo d h mi s : Int) : Option PyDT :=
  if 1 ≤ y ∧ y ≤ 9999 ∧ 1 ≤ mo ∧ mo ≤ 12 ∧ 1 ≤ d
      ∧ d ≤ (daysInMonth (isLeapYear y.toNat) mo.toNat : Int)
      ∧ 0 ≤ h ∧ h ≤ 23 ∧ 0 ≤ mi ∧ mi ≤ 59 ∧ 0 ≤ s ∧ s ≤ 59 then
    some ⟨y.toNat, mo.toNat, d.toNat, h.toNat, mi.toNat, s.toNat⟩
  else none

/-- Days before January 1st of year `y` in the proleptic Gregorian
calendar (the `datetime.date.toordinal` prefix). -/
def daysBeforeYear (y : Nat) : Nat :=
  365 * (y - 1) + ((y - 1) / 4 - (y - 1) / 100) + (y - 1) / 400

/-- `datetime.date.toordinal`: day number with 0001-01-01 as day 1. -/
def toOrdinal (dt : PyDT) : Nat :=
  daysBeforeYear dt.year + daysBeforeMonth (isLeapYear dt.year) dt.month + dt.day

/-- `datetime.date.weekday`: Monday = 0 (0001-01-01 was a Monday). -/
def pyWeekday (dt : PyDT) : Nat :=
  (toOrdinal dt + 6) % 7

/-- `(when.date() - date(when.year, 1, 1)).days`, the 0-based day of year
computed by `__wrap_ASDFilewhen`. -/
def pyDayOfYear (dt : PyDT) : Nat :=
  daysBeforeMonth (isLeapYear dt.year) dt.month + dt.day - 1

/-- `__parse_ASDFilewhen` (lines 953-966): nine little-endian int16 fields;
years below 1900 are offset by 1900; the month is 0-based on disk.  The
`datetime` constructor raises for out-of-range components. -/
def parse_ASDFilewhen (bs : List Nat) : Option (PyDT × Int) := do
  let w := fun i => toSigned 2 (leU (((bs.drop (2 * i)).take 2)))
  let year := if w 5 < 1900 then w 5 + 1900 else w 5
  let dt ← mkPyDatetime year (w 4 + 1) (w 3) (w 2) (w 1) (w 0)
  pure (dt, w 8)

/-- `__wrap_ASDFilewhen` (lines 968-981): re-packs the nine int16 fields,
recomputing the weekday (Sunday = 0 on disk) and the day of year from the
date instead of reusing stored values. -/
def wrap_ASDFilewhen (dt : PyDT) (flag : Int) : Option (List Nat) := do
  let yr : Int := if 1900 ≤ dt.year then (dt.year : Int) - 1900 else (dt.year : Int)
  let fields : List Int :=
    [dt.second, dt.minute, dt.hour, dt.day, (dt.month : Int) - 1, yr,
     ((pyWeekday dt + 1) % 7 : Nat), (pyDayOfYear dt : Nat), flag]
  let packed ← fields.mapM (packS 2)
  pure packed.flatten

/-! ## Metadata codec (`__parse_metadata` / `__wrap_metadata`)

Struct format
`<157s 18s b b b b l b l f f b b b b b H 128s 56s L h h H H f f f f h b 4b
H H H b L H H H H f f 27s 5b`, 481 bytes.  Fields that the byte-level
codec merely transports — the IEEE-754 `f` floats and the opaque `s`
blocks — are carried as raw little-endian bytes (`struct.unpack`/`pack`
round-trips those bit patterns identically).  `darkTime`/`referenceTime`
travel through `datetime.fromtimestamp` on parse and
`int(...timestamp())` on wrap, which compose to the identity on the int32
seconds value, so they are carried as the signed integer. -/

structure MetadataB where
  comments : List Nat
  whenDT : PyDT
  daylighSavingsFlag : Int
  programVersion : Int
  fileVersion : Int
  iTime : Int
  darkCorrected : Int
  darkTime : Int
  dataType : Int
  referenceTime : Int
  channel1Wavelength : List Nat
  wavelengthStep : List Nat
  dataFormat : Int
  old_darkCurrentCount : Int
  old_refCount : Int
  old_sampleCount : Int
  application : Int
  channels : Nat
  appData : List Nat
  gpsData : List Nat
  intergrationTime_ms : Nat
  fo : Int
  darkCurrentCorrention : Int
  calibrationSeries : Nat
  instrumentNum : Nat
  yMin : List Nat
  yMax : List Nat
  xMin : List Nat
  xMax : List Nat
  ipNumBits : Int
  xMode : Int
  flags1 : Int
  flags2 : Int
  flags3 : Int
  flags4 : Int
  darkCurrentCount : Nat
  refCount : Nat
  sampleCount : Nat
  instrument : Int
  calBulbID : Nat
  swir1Gain : Nat
  swir2Gain : Nat
  swir1Offset : Nat
  swir2Offset : Nat
  splice1_wavelength : List Nat
  splice2_wavelength : List Nat
  smartDetectorType : List Nat
  spare1 : Int
  spare2 : Int
  spare3 : Int
  spare4 : Int
  spare5 : Int

/-- Inner body of `__parse_metadata` (`asd_Spect/asdFileHandle.py`, lines
265-305): one `unpack_from` over the 481-byte layout, then the comment
NUL-strip, the `When` conversion (which can raise and abort the whole
parse), and `offset += 481`.  The namedtuple also stores a `byteStream`
debug slice that nothing reads back; it is dropped here. -/
def parse_metadata (s : List Nat) (off : Nat) : Option (MetadataB × Nat) := do
  let _ ← readBytes s off 481
  let blk := (s.drop off).take 481
  let rdU := fun w o => leU ((blk.drop o).take w)
  let rdS := fun w o => toSigned w (rdU w o)
  let rdB := fun n o => (blk.drop o).take n
  let (whenDT, dst) ← parse_ASDFilewhen (rdB 18 157)
  pure ({ comments := stripNulls (rdB 157 0)
          whenDT := whenDT
          daylighSavingsFlag := dst
          programVersion := rdS 1 175
          fileVersion := rdS 1 176
          iTime := rdS 1 177
          darkCorrected := rdS 1 178
          darkTime := rdS 4 179
          dataType := rdS 1 183
          referenceTime := rdS 4 184
          channel1Wavelength := rdB 4 188
          wavelengthStep := rdB 4 192
          dataFormat := rdS 1 196
          old_darkCurrentCount := rdS 1 197
          old_refCount := rdS 1 198
          old_sampleCount := rdS 1 199
          application := rdS 1 200
          channels := rdU 2 201
          appData := rdB 128 203
          gpsData := rdB 56 331
          intergrationTime_ms := rdU 4 387
          fo := rdS 2 391
          darkCurrentCorrention := rdS 2 393
          calibrationSeries := rdU 2 395
          instrumentNum := rdU 2 397
          yMin := rdB 4 399
          yMax := rdB 4 403
          xMin := rdB 4 407
          xMax := rdB 4 411
          ipNumBits := rdS 2 415
          xMode := rdS 1 417
          flags1 := rdS 1 418
          flags2 := rdS 1 419
          flags3 := rdS 1 420
          flags4 := rdS 1 421
          darkCurrentCount := rdU 2 422
          refCount := rdU 2 424
          sampleCount := rdU 2 426
          instrument := rdS 1 428
          calBulbID := rdU 4 429
          swir1Gain := rdU 2 433
          swir2Gain := rdU 2 435
          swir1Offset := rdU 2 437
          swir2Offset := rdU 2 439
          splice1_wavelength := rdB 4 441
          splice2_wavelength := rdB 4 445
          smartDetectorType := rdB 27 449
          spare1 := rdS 1 476
          spare2 := rdS 1 477
          spare3 := rdS 1 478
          spare4 := rdS 1 479
          spare5 := rdS 1 480 }, off + 481)

/-- `__wrap_metadata` (lines 307-371): `struct.pack` of the same layout,
with `ljust` NUL-padding on the byte-string fields and the `When`
re-encoding, followed by the explicit `len == 481` emission check. -/
def wrap_metadata (m : MetadataB) : Option (List Nat) := do
  let whenBytes ← wrap_ASDFilewhen m.whenDT m.daylighSavingsFlag
  let parts : List (Option (List Nat)) :=
    [some (packFixed 157 m.comments),
     some whenBytes,
     packS 1 m.programVersion,
     packS 1 m.fileVersion,
     packS 1 m.iTime,
     packS 1 m.darkCorrected,
     packS 4 m.darkTime,
     packS 1 m.dataType,
     packS 4 m.referenceTime,
     some (packFixed 4 m.channel1Wavelength),
     some (packFixed 4 m.wavelengthStep),
     packS 1 m.dataFormat,
     packS 1 m.old_darkCurrentCount,
     packS 1 m.old_refCount,
     packS 1 m.old_sampleCount,
     packS 1 m.application,
     packU 2 m.channels,
     some (packFixed 128 m.appData),
     some (packFixed 56 m.gpsData),
     packU 4 m.intergrationTime_ms,
     packS 2 m.fo,
     packS 2 m.darkCurrentCorrention,
     packU 2 m.calibrationSeries,
     packU 2 m.instrumentNum,
     some (packFixed 4 m.yMin),
     some (packFixed 4 m.yMax),
     some (packFixed 4 m.xMin),
     some (packFixed 4 m.xMax),
     packS 2 m.ipNumBits,
     packS 1 m.xMode,
     packS 1 m.flags1,
     packS 1 m.flags2,
     packS 1 m.flags3,
     packS 1 m.flags4,
     packU 2 m.darkCurrentCount,
     packU 2 m.refCount,
     packU 2 m.sampleCount,
     packS 1 m.instrument,
     packU 4 m.calBulbID,
     packU 2 m.swir1Gain,
     packU 2 m.swir2Gain,
     packU 2 m.swir1Offset,
     packU 2 m.swir2Offset,
     some (packFixed 4 m.splice1_wavelength),
     some (packFixed 4 m.splice2_wavelength),
     some (packFixed 27 m.smartDetectorType),
     packS 1 m.spare1,
     packS 1 m.spare2,
     packS 1 m.spare3,
     packS 1 m.spare4,
     packS 1 m.spare5]
  let chunks ← parts.mapM id
  let byteStream := chunks.flatten
  if byteStream.length = 481 then pure byteStream else none

/-! ## Offset threading in the read driver

The driver variable `offset` can hold an `int`, Python `None` (a failed
section returns `None`), or the `(None, None)` tuple (the `__check_offset`
decorator returns that pair when the incoming offset is `None` or past the
end; the driver assigns it to `offset` unchanged).  Comparing the tuple
against an `int` inside the decorator raises `TypeError`, which the
driver's per-section `try` swallows, leaving state and offset untouched. -/

inductive OffV : Type
  | num (n : Nat)
  | pynone
  | pypair
deriving DecidableEq, Repr

/-- Result of one decorated section parser as the driver sees it:
`ret recv off` is an ordinary return (with the section record it sets, if
any), `raisedTy` is an exception escaping the decorator (caught by the
driver, which then changes nothing). -/
inductive SecRes (α : Type) : Type
  | ret (recv : Option α) (off : OffV)
  | raisedTy

/-- `__parse_Bool` (lines 814-828) behind its `__check_offset` decorator,
for an integer offset: two bytes, `FF FF` is true, `00 00` is false,
everything else (including a short read near the end) yields the
`(None, None)` failure pair, as does an offset at or past the end. -/
def parse_Bool (s : List Nat) (off : Nat) : Option (Bool × Nat) :=
  if off < s.length then
    let buffer := (s.drop off).take 2
    if buffer = [255, 255] then some (true, off + 2)
    else if buffer = [0, 0] then some (false, off + 2)
    else none
  else none

/-- `__wrap_Bool` (lines 830-842): the two sentinel encodings. -/
def wrap_Bool (b : Bool) : List Nat :=
  if b then [255, 255] else [0, 0]

/-- Outcome of `__parse_bstr` (lines 781-795): `ok` returns the decoded
bytes and the new offset; `errPair` is the `(None, None)` return that its
`except struct.error` produces (short buffer, negative-size format, or a
rejected incoming offset); `raised` is the uncaught `UnicodeDecodeError`
of `bytes.decode('utf-8')`. -/
inductive BstrRes : Type
  | ok (bs : List Nat) (off : Nat)
  | errPair
  | raised
deriving DecidableEq, Repr

/-- `__parse_bstr` behind its decorator, over a driver offset value. -/
def parse_bstr (s : List Nat) : OffV → BstrRes
  | OffV.pypair => BstrRes.raised
  | OffV.pynone => BstrRes.errPair
  | OffV.num n =>
      if n < s.length then
        match readSN 2 s n with
        | none => BstrRes.errPair
        | some size =>
            if 0 ≤ size then
              match readBytes s (n + 2) size.toNat with
              | none => BstrRes.errPair
              | some bs =>
                  if utf8Valid bs then BstrRes.ok bs (n + 2 + size.toNat)
                  else BstrRes.raised
            else BstrRes.errPair
      else BstrRes.errPair

/-- `__wrap_bstr` (lines 797-812): length-prefixed emission.  The argument
is `none` when the in-memory field is Python `None` (a partially parsed
record); neither `isinstance` branch then assigns `byteStream`, and the
resulting `UnboundLocalError` aborts the caller, modelled as `none`. -/
def wrap_bstr : Option (List Nat) → Option (List Nat)
  | none => none
  | some bs => (packS 2 (bs.length : Int)).map (fun p => p ++ bs)

/-- Outcome of `__parse_spectra` (lines 730-740) behind its decorator:
`okS` is a successful fixed-width read of `channels * 8` bytes; `errNone`
is the internal `except` returning four `None`s (buffer too short, or
`self.metadata` itself `None`); `pairRes` is the decorator's `(None,
None)` pair, which every caller then crashes on while unpacking into four
targets (`ValueError`), caught one level further up. -/
inductive SpectraRes : Type
  | okS (raw : List Nat) (off : Nat)
  | errNone
  | pairRes
deriving DecidableEq, Repr

def parse_spectra (s : List Nat) (mdChannels : Option Nat) : OffV → SpectraRes
  | OffV.pypair => SpectraRes.pairRes
  | OffV.pynone => SpectraRes.pairRes
  | OffV.num n =>
      if n < s.length then
        match mdChannels with
        | none => SpectraRes.errNone
        | some ch =>
            match readBytes s n (8 * ch) with
            | none => SpectraRes.errNone
            | some raw => SpectraRes.okS raw (n + 8 * ch)
      else SpectraRes.pairRes

/-- `__wrap_spectra` (lines 742-750): `struct.pack('<{channels}d',
*spectra)` demands exactly `channels` doubles (else `struct.error`, and a
`None` array raises `TypeError`); the emitted bytes are the transported
bit patterns. -/
def wrap_spectra (ch : Nat) : Option (List Nat) → Option (List Nat)
  | none => none
  | some raw => if raw.length = 8 * ch then some raw else none

/-- The `spectrumData` / `referenceData` namedtuple; its `spectra` field is
`None` in the partially-failed parse path.  The `byteStream` debug slice
(taken at the wrong offset in the source, and never read back) is
dropped. -/
structure SpectData where
  spectra : Option (List Nat)

/-- `__parse_spectrumData` (lines 373-383) behind its decorator. -/
def parse_spectrumData (s : List Nat) (mdChannels : Option Nat) :
    OffV → SecRes SpectData
  | OffV.pypair => SecRes.raisedTy
  | OffV.pynone => SecRes.ret none OffV.pypair
  | OffV.num n =>
      if n < s.length then
        match parse_spectra s mdChannels (OffV.num n) with
        | SpectraRes.okS raw off2 => SecRes.ret (some ⟨some raw⟩) (OffV.num off2)
        | SpectraRes.errNone => SecRes.ret (some ⟨none⟩) OffV.pynone
        | SpectraRes.pairRes => SecRes.ret none OffV.pynone
      else SecRes.ret none OffV.pypair

/-- `__parse_referenceData` (lines 426-436): same shape as
`parse_spectrumData`, filling `referenceData`. -/
def parse_referenceData (s : List Nat) (mdChannels : Option Nat) :
    OffV → SecRes SpectData :=
  parse_spectrumData s mdChannels

/-- Decoded reference file header (flag, two int64 timestamps, description;
the description is `None` when its string failed with the recoverable
`(None, None)` outcome while the record still got built). -/
structure RefHdrB where
  referenceFlag : Bool
  referenceTime : Int
  spectrumTime : Int
  referenceDescription : Option (List Nat)

/-- `__parse_referenceFileHeader` (lines 393-410) behind its decorator:
Boolean, `unpack_from('q q')` (native sizes, 16 bytes), then the
description string.  A failed Boolean leaves `offset = None` and the
subsequent unpack raises `TypeError`, caught by the section's `except`;
a `struct.error` on the description returns the pair, after which the
record is still assigned (description `None`) and `None` is returned as
the offset. -/
def parse_referenceFileHeader (s : List Nat) : OffV → SecRes RefHdrB
  | OffV.pypair => SecRes.raisedTy
  | OffV.pynone => SecRes.ret none OffV.pypair
  | OffV.num n =>
      if n < s.length then
        match parse_Bool s n with
        | none => SecRes.ret none OffV.pynone
        | some (flag, n2) =>
            match readBytes s n2 16 with
            | none => SecRes.ret none OffV.pynone
            | some qq =>
                let t1 := toSigned 8 (leU (qq.take 8))
                let t2 := toSigned 8 (leU (qq.drop 8))
                match parse_bstr s (OffV.num (n2 + 16)) with
                | BstrRes.ok bs n3 =>
                    SecRes.ret (some ⟨flag, t1, t2, some bs⟩) (OffV.num n3)
                | BstrRes.errPair =>
                    SecRes.ret (some ⟨flag, t1, t2, none⟩) OffV.pynone
                | BstrRes.raised => SecRes.ret none OffV.pynone
      else SecRes.ret none OffV.pypair

/-- `__wrap_referenceFileHeader` (lines 412-424). -/
def wrap_referenceFileHeader (r : RefHdrB) : Option (List Nat) := do
  let t1 ← packS 8 r.referenceTime
  let t2 ← packS 8 r.spectrumTime
  let d ← wrap_bstr r.referenceDescription
  pure (wrap_Bool r.referenceFlag ++ t1 ++ t2 ++ d)

/-! ## Classifier data (`__parse_classifierData` / `__wrap_classifierData`) -/

/-- One constituent record: two strings plus the 92-byte numeric block
`<d d d d d d d d d l d d` (nine doubles, an int32 `modelType`, two
reserved doubles), transported bit-exactly. -/
structure ConstituantB where
  constituentName : List Nat
  passFail : List Nat
  nums : List Nat

/-- Outcome of `__parse_constituantType` (lines 752-766) behind its
decorator: `okC` succeeds; `pairC` is its `(None, None)` return (any
internal failure is caught there, and a rejected offset also unpacks into
the two targets without raising); `raisedC` is the decorator `TypeError`
on a tuple offset, which aborts the surrounding classifier parse. -/
inductive ConstRes : Type
  | okC (item : ConstituantB) (off : Nat)
  | pairC
  | raisedC

def parse_constituantType (s : List Nat) : OffV → ConstRes
  | OffV.pypair => ConstRes.raisedC
  | OffV.pynone => ConstRes.pairC
  | OffV.num n =>
      if n < s.length then
        match parse_bstr s (OffV.num n) with
        | BstrRes.ok nm n2 =>
            match parse_bstr s (OffV.num n2) with
            | BstrRes.ok pf n3 =>
                match readBytes s n3 92 with
                | some nums => ConstRes.okC ⟨nm, pf, nums⟩ (n3 + 92)
                | none => ConstRes.pairC
            | _ => ConstRes.pairC
        | _ => ConstRes.pairC
      else ConstRes.pairC

/-- `__wrap_constituantType` (lines 768-779). -/
def wrap_constituantType (it : ConstituantB) : Option (List Nat) := do
  let nm ← wrap_bstr (some it.constituentName)
  let pf ← wrap_bstr (some it.passFail)
  let nums ← if it.nums.length = 92 then some it.nums else none
  pure (nm ++ pf ++ nums)

/-- Decoded classifier record.  The twenty length-prefixed strings (title,
subtitle, productName, vendor, lotNumber, sample, modelName, operator,
dateTime, instrument, serialNumber, displayMode, comments, units,
filename, username, reserved1-4) are kept as a list in that order; an
entry is `none` when its parse hit the recoverable `(None, None)` path.
Items can likewise be `none` placeholders appended after a constituent
failure. -/
structure ClassifierB where
  yCode : Int
  yModelType : Int
  strs : List (Option (List Nat))
  constituantCount : Nat
  constituantItems : List (Option ConstituantB)

/-- Thread `count` many string reads, as the classifier body does. -/
def bstrChain (s : List Nat) : Nat → OffV → Option (List (Option (List Nat)) × OffV)
  | 0, off => some ([], off)
  | k + 1, off =>
      match parse_bstr s off with
      | BstrRes.raised => none
      | BstrRes.errPair =>
          (bstrChain s k OffV.pynone).map (fun (vs, o) => (none :: vs, o))
      | BstrRes.ok bs o2 =>
          (bstrChain s k (OffV.num o2)).map (fun (vs, o) => (some bs :: vs, o))

/-- Thread `count` many constituent reads; `none` when the decorator
raised and the whole classifier parse aborts. -/
def constChain (s : List Nat) : Nat → OffV →
    Option (List (Option ConstituantB) × OffV)
  | 0, off => some ([], off)
  | k + 1, off =>
      match parse_constituantType s off with
      | ConstRes.raisedC => none
      | ConstRes.pairC =>
          (constChain s k OffV.pynone).map (fun (vs, o) => (none :: vs, o))
      | ConstRes.okC it o2 =>
          (constChain s k (OffV.num o2)).map (fun (vs, o) => (some it :: vs, o))

/-- `__parse_classifierData` (lines 446-494) behind its decorator: two
signed bytes, twenty strings, an unsigned-16 count, then either the
10-byte preamble plus the constituents (count > 0) or a 2-byte skip
(count = 0).  A raised string decode or a `TypeError` on a dead offset
is caught by the section's `except`, leaving the record unset. -/
def parse_classifierData (s : List Nat) : OffV → SecRes ClassifierB
  | OffV.pypair => SecRes.raisedTy
  | OffV.pynone => SecRes.ret none OffV.pypair
  | OffV.num n =>
      if n < s.length then
        match readBytes s n 2 with
        | none => SecRes.ret none OffV.pynone
        | some hd =>
            let yCode := toSigned 1 (leU (hd.take 1))
            let yModel := toSigned 1 (leU (hd.drop 1))
            match bstrChain s 20 (OffV.num (n + 2)) with
            | none => SecRes.ret none OffV.pynone
            | some (strs, off20) =>
                match off20 with
                | OffV.num m =>
                    match readUN 2 s m with
                    | none => SecRes.ret none OffV.pynone
                    | some cnt =>
                        if cnt > 0 then
                          match constChain s cnt (OffV.num (m + 2 + 10)) with
                          | none => SecRes.ret none OffV.pynone
                          | some (items, offE) =>
                              SecRes.ret
                                (some ⟨yCode, yModel, strs, cnt, items⟩) offE
                        else
                          SecRes.ret (some ⟨yCode, yModel, strs, cnt, []⟩)
                            (OffV.num (m + 2 + 2))
                | _ => SecRes.ret none OffV.pynone
      else SecRes.ret none OffV.pypair

/-- `__wrap_classifierData` (lines 496-538). -/
def wrap_classifierData (c : ClassifierB) : Option (List Nat) := do
  let y1 ← packS 1 c.yCode
  let y2 ← packS 1 c.yModelType
  let strParts ← c.strs.mapM wrap_bstr
  let cntB ← packU 2 c.constituantCount
  let tail ←
    if c.constituantCount > 0 then do
      let p1 ← packU 2 1
      let p2 ← packU 4 c.constituantCount
      let p3 ← packU 4 0
      let items ← (List.range c.constituantCount).mapM (fun i => do
        let it ← (c.constituantItems.get? i).bind id
        wrap_constituantType it)
      pure (p1 ++ p2 ++ p3 ++ items.flatten)
    else pure [0, 0]
  pure (y1 ++ y2 ++ strParts.flatten ++ cntB ++ tail)

/-! ## Dependent variables -/

/-- Decoded dependants record.  When the count is zero the source stores
`b''` and `0` in the two list fields; both behave as empty sequences on
re-emission and are modelled as `[]`. -/
structure DependantsB where
  saveDependentVariables : Bool
  dependentVariableCount : Int
  labels : List (Option (List Nat))
  valuesRaw : List (List Nat)

/-- Thread the float32 value reads of the dependants section. -/
def f32Chain (s : List Nat) : Nat → Nat → Option (List (List Nat) × Nat)
  | 0, off => some ([], off)
  | k + 1, off =>
      match readBytes s off 4 with
      | none => none
      | some v => (f32Chain s k (off + 4)).map (fun (vs, o) => (v :: vs, o))

/-- `__parse_dependentVariables` (lines 540-570) behind its decorator:
Boolean, signed-16 count; for positive counts a 10-byte preamble, the
labels, another 10-byte preamble and the float32 values; for a zero
count a 4-byte skip.  A negative count assigns nothing (both `if`s
false) yet still returns the advanced offset. -/
def parse_dependentVariables (s : List Nat) : OffV → SecRes DependantsB
  | OffV.pypair => SecRes.raisedTy
  | OffV.pynone => SecRes.ret none OffV.pypair
  | OffV.num n =>
      if n < s.length then
        match parse_Bool s n with
        | none => SecRes.ret none OffV.pynone
        | some (b, n2) =>
            match readSN 2 s n2 with
            | none => SecRes.ret none OffV.pynone
            | some cnt =>
                if cnt > 0 then
                  match bstrChain s cnt.toNat (OffV.num (n2 + 2 + 10)) with
                  | none => SecRes.ret none OffV.pynone
                  | some (labels, offL) =>
                      match offL with
                      | OffV.num m =>
                          match f32Chain s cnt.toNat (m + 10) with
                          | none => SecRes.ret none OffV.pynone
                          | some (vals, offE) =>
                              SecRes.ret (some ⟨b, cnt, labels, vals⟩)
                                (OffV.num offE)
                      | _ => SecRes.ret none OffV.pynone
                else if cnt = 0 then
                  SecRes.ret (some ⟨b, 0, [], []⟩) (OffV.num (n2 + 2 + 4))
                else
                  SecRes.ret none (OffV.num (n2 + 2))
      else SecRes.ret none OffV.pypair

/-- `__wrap_dependentVariables` (lines 572-603). -/
def wrap_dependentVariables (d : DependantsB) : Option (List Nat) := do
  let cntB ← packS 2 d.dependentVariableCount
  let hd := wrap_Bool d.saveDependentVariables ++ cntB
  if d.dependentVariableCount > 0 then do
    let p1 ← packU 2 1
    let p2 ← packU 4 d.dependentVariableCount.toNat
    let p3 ← packU 4 0
    let labels ← (List.range d.dependentVariableCount.toNat).mapM
      (fun i => wrap_bstr ((d.labels.get? i).getD none))
    let vals ← (List.range d.dependentVariableCount.toNat).mapM (fun i => do
      let v ← d.valuesRaw.get? i
      if v.length = 4 then some v else none)
    pure (hd ++ p1 ++ p2 ++ p3 ++ labels.flatten ++ p1 ++ p2 ++ p3 ++ vals.flatten)
  else if d.dependentVariableCount = 0 then
    pure (hd ++ [0, 0, 0, 0])
  else
    pure hd

/-! ## Calibration header and series -/

/-- One 30-byte calibration header entry `<b 20s i h h` (29 payload bytes
after the count byte... the format itself is 29 bytes: type, NUL-stripped
20-byte name, int32 integration time, two int16 gains). -/
structure CalEntry where
  ctype : Int
  name : List Nat
  it_ms : Int
  swir1Gain : Int
  swir2Gain : Int

structure CalibHdrB where
  calibrationNum : Int
  calibrationSeries : List CalEntry

/-- Read `k` consecutive 29-byte calibration entries. -/
def calEntryChain (s : List Nat) : Nat → Nat → Option (List CalEntry × Nat)
  | 0, off => some ([], off)
  | k + 1, off =>
      match readBytes s off 29 with
      | none => none
      | some e =>
          let entry : CalEntry :=
            { ctype := toSigned 1 (leU (e.take 1))
              name := stripNulls ((e.drop 1).take 20)
              it_ms := toSigned 4 (leU ((e.drop 21).take 4))
              swir1Gain := toSigned 2 (leU ((e.drop 25).take 2))
              swir2Gain := toSigned 2 (leU ((e.drop 27).take 2)) }
          (calEntryChain s k (off + 29)).map (fun (es, o) => (entry :: es, o))

/-- `__parse_calibrationHeader` (lines 605-629) behind its decorator: a
signed count byte, then that many 29-byte entries; the record is set for
zero (or negative) counts too. -/
def parse_calibrationHeader (s : List Nat) : OffV → SecRes CalibHdrB
  | OffV.pypair => SecRes.raisedTy
  | OffV.pynone => SecRes.ret none OffV.pypair
  | OffV.num n =>
      if n < s.length then
        match readSN 1 s n with
        | none => SecRes.ret none OffV.pynone
        | some cnt =>
            if cnt > 0 then
              match calEntryChain s cnt.toNat (n + 1) with
              | none => SecRes.ret none OffV.pynone
              | some (es, offE) =>
                  SecRes.ret (some ⟨cnt, es⟩) (OffV.num offE)
            else SecRes.ret (some ⟨cnt, []⟩) (OffV.num (n + 1))
      else SecRes.ret none OffV.pypair

/-- `__wrap_calibrationHeader` (lines 631-646); the emission loop walks the
entry list itself. -/
def wrap_calibrationHeader (h : CalibHdrB) : Option (List Nat) := do
  let cntB ← packS 1 h.calibrationNum
  if h.calibrationNum > 0 then do
    let entries ← h.calibrationSeries.mapM (fun e => do
      let t ← packS 1 e.ctype
      let it ← packS 4 e.it_ms
      let g1 ← packS 2 e.swir1Gain
      let g2 ← packS 2 e.swir2Gain
      pure (t ++ packFixed 20 e.name ++ it ++ g1 ++ g2))
    pure (cntB ++ entries.flatten)
  else pure cntB

/-- The four typed calibration slots of the aggregate. -/
structure CalSlots where
  sABS : Option (List Nat)
  sBSE : Option (List Nat)
  sLMP : Option (List Nat)
  sFO : Option (List Nat)

def emptySlots : CalSlots := ⟨none, none, none, none⟩

def slotSet (sl : CalSlots) (t : Int) (v : Option (List Nat)) : CalSlots :=
  if t = 0 then { sl with sABS := v }
  else if t = 1 then { sl with sBSE := v }
  else if t = 2 then { sl with sLMP := v }
  else if t = 3 then { sl with sFO := v }
  else sl

def slotGet (sl : CalSlots) (t : Int) : Option (List Nat) :=
  if t = 0 then sl.sABS
  else if t = 1 then sl.sBSE
  else if t = 2 then sl.sLMP
  else if t = 3 then sl.sFO
  else none

/-- The calibration-series reading loop of `ASDFile.read` (lines 123-133):
for each header entry, in header order, parse one spectrum block and route
it to the slot selected by the entry type; entries with an unknown type
take no branch and consume nothing.  A decoder `(None, None)` pair raises
`ValueError` at the four-target unpack, aborting the remaining loop (the
driver `try` catches it, keeping the offset variable's prior value); the
internal four-`None` outcome stores `None` into the slot and poisons the
offset, so the next valid entry aborts. -/
def calibParseLoop (s : List Nat) (mdChannels : Option Nat) :
    List CalEntry → CalSlots → OffV → CalSlots × OffV
  | [], sl, off => (sl, off)
  | e :: rest, sl, off =>
      if e.ctype = 0 ∨ e.ctype = 1 ∨ e.ctype = 2 ∨ e.ctype = 3 then
        match parse_spectra s mdChannels off with
        | SpectraRes.okS raw off2 =>
            calibParseLoop s mdChannels rest (slotSet sl e.ctype (some raw))
              (OffV.num off2)
        | SpectraRes.errNone =>
            calibParseLoop s mdChannels rest (slotSet sl e.ctype none) OffV.pynone
        | SpectraRes.pairRes => (sl, off)
      else calibParseLoop s mdChannels rest sl off

/-- The calibration-series emission loop of `ASDFile.write` (lines
217-238): for `i` in `range(calibrationNum)`, look at entry `i`'s type and
emit the matching slot through `__wrap_spectra`; unknown types emit
nothing; a missing entry (`IndexError`), a `None` slot, or a length
mismatch aborts the write. -/
def calibEmitStep (ch : Nat) (series : List CalEntry) (sl : CalSlots)
    (acc : List (List Nat)) (i : Nat) : Option (List (List Nat)) :=
  (series.get? i).bind fun e =>
  if e.ctype = 0 then (wrap_spectra ch sl.sABS).map (fun b => acc ++ [b])
  else if e.ctype = 1 then (wrap_spectra ch sl.sBSE).map (fun b => acc ++ [b])
  else if e.ctype = 2 then (wrap_spectra ch sl.sLMP).map (fun b => acc ++ [b])
  else if e.ctype = 3 then (wrap_spectra ch sl.sFO).map (fun b => acc ++ [b])
  else some acc

def calibEmit (ch : Nat) (cnt : Nat) (series : List CalEntry)
    (sl : CalSlots) : Option (List (List Nat)) :=
  (List.range cnt).foldlM (calibEmitStep ch series sl) []

/-! ## Audit log -/

def openTagB : List Nat := "<Audit_Event>".toList.map Char.toNat

def closeTagB : List Nat := "</Audit_Event>".toList.map Char.toNat

/-- First index at which `pat` occurs in `hay`. -/
def findSub (hay pat : List Nat) : Option Nat :=
  (List.range (hay.length + 1)).find? (fun i => pat.isPrefixOf (hay.drop i))

/-- The non-overlapping lazy regex scan of `__parse_auditEvents` (lines
844-859): repeatedly take the next `<Audit_Event>`, the first
`</Audit_Event>` after it, and keep the enclosed event (tags included).
The Python code runs the regex over the buffer decoded with
`errors='ignore'`; on the ASCII XML the format carries, positions and
lengths agree with this byte-level scan. -/
def auditScan (fuel : Nat) (hay : List Nat) : List (List Nat) :=
  match fuel with
  | 0 => []
  | fuel + 1 =>
      match findSub hay openTagB with
      | none => []
      | some i =>
          let rest := hay.drop (i + openTagB.length)
          match findSub rest closeTagB with
          | none => []
          | some j =>
              (openTagB ++ rest.take j ++ closeTagB) ::
                auditScan fuel (rest.drop (j + closeTagB.length))

structure AuditB where
  auditCount : Int
  auditEvents : List (List Nat)

/-- `__parse_auditLog` (lines 648-664) behind its decorator: a native
`l` count (8 bytes on this platform), and for positive counts the 10-byte
preamble then the event scan, advancing by `sum (len event + 2)`.  For a
count of zero or less the local `auditEvents` is never bound and the
namedtuple construction raises `NameError`, caught by the section
`except`, so the record stays unset. -/
def parse_auditLog (s : List Nat) : OffV → SecRes AuditB
  | OffV.pypair => SecRes.raisedTy
  | OffV.pynone => SecRes.ret none OffV.pypair
  | OffV.num n =>
      if n < s.length then
        match readSN 8 s n with
        | none => SecRes.ret none OffV.pynone
        | some cnt =>
            if cnt > 0 then
              let m := n + 8 + 10
              if m < s.length then
                let evs := auditScan (s.length + 1) (s.drop m)
                let total := (evs.map (fun e => e.length + 2)).sum
                SecRes.ret (some ⟨cnt, evs⟩) (OffV.num (m + total))
              else SecRes.ret none OffV.pynone
            else SecRes.ret none OffV.pynone
      else SecRes.ret none OffV.pypair

/-- `__wrap_auditEvents` (lines 861-873): each event is emitted with its
own int16 size prefix (`len` of the decoded string; identical to the byte
length on the ASCII XML the format carries).  An empty event list leaves
`byteStreamLength` unbound, so the caller aborts. -/
def wrap_auditEvents (evs : List (List Nat)) : Option (List Nat) :=
  if evs = [] then none
  else (evs.mapM (fun e => (packS 2 (e.length : Int)).map (fun p => p ++ e))).map
    List.flatten

/-- `__wrap_auditLog` (lines 666-681). -/
def wrap_auditLog (a : AuditB) : Option (List Nat) := do
  let cntB ← packS 8 a.auditCount
  if a.auditCount > 0 then do
    let p1 ← packU 2 1
    let p2 ← if 0 ≤ a.auditCount ∧ a.auditCount < 2 ^ 32
      then some (bytesLE 4 a.auditCount.toNat) else none
    let p3 ← packU 4 0
    let evB ← wrap_auditEvents a.auditEvents
    pure (cntB ++ p1 ++ p2 ++ p3 ++ evB)
  else pure cntB

/-! ## Signature -/

/-- Decoded signature record: `signed` byte, int64 time, seven strings
(userDomain, userLogin, userName, source, reason, notes, publicKey, in
order) and the fixed 128-byte blob. -/
structure SignatureB where
  signedFlag : Int
  signatureTime : Int
  strs : List (Option (List Nat))
  blob : List Nat

/-- `__parse_signature` (lines 683-709) behind its decorator. -/
def parse_signature (s : List Nat) : OffV → SecRes SignatureB
  | OffV.pypair => SecRes.raisedTy
  | OffV.pynone => SecRes.ret none OffV.pypair
  | OffV.num n =>
      if n < s.length then
        match readSN 1 s n with
        | none => SecRes.ret none OffV.pynone
        | some sg =>
            match readSN 8 s (n + 1) with
            | none => SecRes.ret none OffV.pynone
            | some t =>
                match bstrChain s 7 (OffV.num (n + 9)) with
                | none => SecRes.ret none OffV.pynone
                | some (strs, off7) =>
                    match off7 with
                    | OffV.num m =>
                        match readBytes s m 128 with
                        | none => SecRes.ret none OffV.pynone
                        | some blob =>
                            SecRes.ret (some ⟨sg, t, strs, blob⟩)
                              (OffV.num (m + 128))
                    | _ => SecRes.ret none OffV.pynone
      else SecRes.ret none OffV.pypair

/-- `__wrap_signature` (lines 711-728). -/
def wrap_signature (sg : SignatureB) : Option (List Nat) := do
  let s1 ← packS 1 sg.signedFlag
  let s2 ← packS 8 sg.signatureTime
  let strParts ← sg.strs.mapM wrap_bstr
  pure (s1 ++ s2 ++ strParts.flatten ++ packFixed 128 sg.blob)

/-! ## The aggregate and the file drivers -/

/-- In-memory aggregate mirroring the attributes `ASDFile.__init__` sets,
plus the private trailer buffer `__bom`.  `bom = none` models the
attribute never having been assigned; because the class defines a
catch-all `__getattr__` whose final `else` returns `None` (lines 876-888),
reading the unset `_ASDFile__bom` yields Python `None` instead of raising
`AttributeError`. -/
structure ASDrec where
  asdFileVersion : Int
  metadata : Option MetadataB
  spectrumData : Option SpectData
  referenceFileHeader : Option RefHdrB
  referenceData : Option SpectData
  classifierData : Option ClassifierB
  dependants : Option DependantsB
  calibrationHeader : Option CalibHdrB
  calibrationSeriesABS : Option (List Nat)
  calibrationSeriesBSE : Option (List Nat)
  calibrationSeriesLMP : Option (List Nat)
  calibrationSeriesFO : Option (List Nat)
  auditLog : Option AuditB
  signature : Option SignatureB
  bom : Option (List Nat)

/-- `__validate_fileVersion` (lines 927-939): the first three bytes decode
to a key of `version_dict`; anything else (including undecodable bytes or
a short buffer) is caught and reported as version `-1`. -/
def validate_fileVersion (s : List Nat) : Int :=
  let v := s.take 3
  if v = [65, 83, 68] then 1
  else if v = [97, 115, 50] then 2
  else if v = [97, 115, 51] then 3
  else if v = [97, 115, 52] then 4
  else if v = [97, 115, 53] then 5
  else if v = [97, 115, 54] then 6
  else if v = [97, 115, 55] then 7
  else if v = [97, 115, 56] then 8
  else -1

/-- Little-endian IEEE-754 binary32 is zero exactly for the two patterns
`00 00 00 00` and `00 00 00 80`; `np.arange` with that step raises
`ZeroDivisionError`.  (The streams this development evaluates carry finite
step floats, for which this is the only raising case.) -/
def f32IsZero (bs : List Nat) : Bool :=
  bs = [0, 0, 0, 0] ∨ bs = [0, 0, 0, 128]

/-- `__parse_metadata` behind its decorator, as the driver calls it. -/
def metadataStep (s : List Nat) : OffV → Option MetadataB × OffV
  | OffV.pypair => (none, OffV.pypair)
  | OffV.pynone => (none, OffV.pypair)
  | OffV.num n =>
      if n < s.length then
        match parse_metadata s n with
        | none => (none, OffV.pynone)
        | some (md, off2) => (some md, OffV.num off2)
      else (none, OffV.pypair)

/-- Fold one decorated section outcome into the driver state: an escaped
exception leaves both the record and the offset untouched. -/
def secFold {α : Type} (cur : Option α) (off : OffV) :
    SecRes α → Option α × OffV
  | SecRes.ret r o => (r, o)
  | SecRes.raisedTy => (cur, off)

/-- `ASDFile.read` (lines 69-152) on an in-memory byte string: strip and
remember the trailer, identify the version, then run the version-gated
section chain, each section inside its own `try`.  The `readSuccess` flag
is `true` whenever the version was recognised, regardless of section
failures, so it is not modelled separately. -/
def ASDread (file : List Nat) : ASDrec :=
  let hasBom := decide (3 ≤ file.length) && decide (file.drop (file.length - 3) = [255, 254, 253])
  let bom := if hasBom then some [255, 254, 253] else none
  let s := if hasBom then file.take (file.length - 3) else file
  let v := validate_fileVersion s
  let st0 : ASDrec :=
    { asdFileVersion := v, metadata := none, spectrumData := none
      referenceFileHeader := none, referenceData := none, classifierData := none
      dependants := none, calibrationHeader := none
      calibrationSeriesABS := none, calibrationSeriesBSE := none
      calibrationSeriesLMP := none, calibrationSeriesFO := none
      auditLog := none, signature := none, bom := bom }
  if v > 0 then
    -- metadata, wavelength axis and spectrum share one try block
    let (md, off1) := metadataStep s (OffV.num 3)
    let arangeOk :=
      match md with
      | none => false      -- AttributeError on self.metadata.channel1Wavelength
      | some m => ¬ f32IsZero m.wavelengthStep
    let mdCh := md.map (fun m => m.channels)
    let (sd, off2) :=
      if arangeOk then secFold none off1 (parse_spectrumData s mdCh off1)
      else (none, off1)
    let st1 := { st0 with metadata := md, spectrumData := sd }
    if 2 ≤ v then
      let (rh, off3) := secFold none off2 (parse_referenceFileHeader s off2)
      let (rd, off4) := secFold none off3 (parse_referenceData s mdCh off3)
      let st2 := { st1 with referenceFileHeader := rh, referenceData := rd }
      let (cl, off5) :=
        if 6 ≤ v then secFold none off4 (parse_classifierData s off4)
        else (none, off4)
      let (dp, off6) :=
        if 6 ≤ v then secFold none off5 (parse_dependentVariables s off5)
        else (none, off5)
      let st3 := { st2 with classifierData := cl, dependants := dp }
      let (ch?, off7) :=
        if 7 ≤ v then secFold none off6 (parse_calibrationHeader s off6)
        else (none, off6)
      let (slots, off8) :=
        if 7 ≤ v then
          match ch? with
          | some h =>
              if h.calibrationNum > 0 then
                calibParseLoop s mdCh h.calibrationSeries emptySlots off7
              else (emptySlots, off7)
          | none => (emptySlots, off7)
        else (emptySlots, off7)
      let st4 := { st3 with calibrationHeader := ch?
                            calibrationSeriesABS := slots.sABS
                            calibrationSeriesBSE := slots.sBSE
                            calibrationSeriesLMP := slots.sLMP
                            calibrationSeriesFO := slots.sFO }
      let (al, off9) :=
        if 8 ≤ v then secFold none off8 (parse_auditLog s off8)
        else (none, off8)
      let (sg, _) :=
        if 8 ≤ v then secFold none off9 (parse_signature s off9)
        else (none, off9)
      { st4 with auditLog := al, signature := sg }
    else st1
  else st0

/-- Tag for one `fileHandle.write(...)` call inside `ASDFile.write`. -/
inductive Sect : Type
  | version
  | metadata
  | spectrum
  | refHeader
  | refData
  | classifier
  | dependants
  | calibHeader
  | calibSeries
  | auditLog
  | signature
  | trailer
deriving DecidableEq, Repr

/-- `__setFileVersion` (lines 941-947): `"ASD"` for version 1, `"as{v}"`
for larger versions.  (For version 0 or less the local is unbound; the
driver never calls it then.) -/
def setFileVersion (v : Int) : Option (List Nat) :=
  if v = 1 then some [65, 83, 68]
  else if v > 1 then some ([97, 115] ++ (Nat.toDigits 10 v.toNat).map Char.toNat)
  else none

/-- The trailer step of `ASDFile.write` (lines 249-250): `if self.__bom:`
reads the private attribute; when it was never assigned the catch-all
`__getattr__` supplies `None`, which is falsy, so nothing is written and
no exception escapes. -/
def bomChunk (st : ASDrec) : List (Sect × List Nat) :=
  match st.bom with
  | some b => if b = [] then [] else [(Sect.trailer, b)]
  | none => []

/-- Reference-header step of the write driver (lines 191-195): an absent
record emits nothing; a present record emits one tagged chunk, or aborts
the write when wrapping fails. -/
def refHeaderChunk (st : ASDrec) : Option (List (Sect × List Nat)) :=
  match st.referenceFileHeader with
  | none => some []
  | some r => (wrap_referenceFileHeader r).map (fun b => [(Sect.refHeader, b)])

/-- Reference-data step (lines 196-200); wrapping needs
`metadata.channels`, so a missing metadata aborts. -/
def refDataChunk (st : ASDrec) : Option (List (Sect × List Nat)) :=
  match st.referenceData with
  | none => some []
  | some rd =>
      match st.metadata with
      | none => none
      | some md =>
          (wrap_spectra md.channels rd.spectra).map (fun b => [(Sect.refData, b)])

/-- Classifier step (lines 201-205). -/
def classifierChunk (st : ASDrec) : Option (List (Sect × List Nat)) :=
  match st.classifierData with
  | none => some []
  | some c => (wrap_classifierData c).map (fun b => [(Sect.classifier, b)])

/-- Dependants step (lines 206-210). -/
def dependantsChunk (st : ASDrec) : Option (List (Sect × List Nat)) :=
  match st.dependants with
  | none => some []
  | some d => (wrap_dependentVariables d).map (fun b => [(Sect.dependants, b)])

/-- Calibration-header step (lines 212-216). -/
def calibHeaderChunk (st : ASDrec) : Option (List (Sect × List Nat)) :=
  match st.calibrationHeader with
  | none => some []
  | some h => (wrap_calibrationHeader h).map (fun b => [(Sect.calibHeader, b)])

/-- Calibration-series emission (lines 217-238), one block per header
entry through `calibEmit`. -/
def calibSeriesChunks (st : ASDrec) : Option (List (List Nat)) :=
  match st.calibrationHeader with
  | none => some []
  | some h =>
      if h.calibrationNum > 0 then
        match st.metadata with
        | none => none
        | some md =>
            calibEmit md.channels h.calibrationNum.toNat h.calibrationSeries
              ⟨st.calibrationSeriesABS, st.calibrationSeriesBSE,
               st.calibrationSeriesLMP, st.calibrationSeriesFO⟩
      else some []

/-- The `version ≥ 8` audit/signature block (lines 239-247): written
unconditionally at those versions, so an unset record or a wrap failure
aborts the write. -/
def auditSigChunks (st : ASDrec) : Option (List (Sect × List Nat)) :=
  if 8 ≤ st.asdFileVersion then
    st.auditLog.bind fun al =>
    (wrap_auditLog al).bind fun ab =>
    st.signature.bind fun sg =>
    (wrap_signature sg).bind fun sb =>
    some [(Sect.auditLog, ab), (Sect.signature, sb)]
  else some []

/-- The `version ≥ 7` calibration block of the write driver (lines
211-247), with the `version ≥ 8` block nested inside it as in the
source. -/
def calibBlock (st : ASDrec) : Option (List (Sect × List Nat)) :=
  if 7 ≤ st.asdFileVersion then
    (calibHeaderChunk st).bind fun hc =>
    (calibSeriesChunks st).bind fun series =>
    (auditSigChunks st).bind fun v8 =>
    some (hc ++ series.map (fun b => (Sect.calibSeries, b)) ++ v8)
  else some []

/-- The `version ≥ 2` portion of `ASDFile.write` (lines 190-247), which
the source nests inside the `if self.spectrumData:` block: reference
header and data, classifier and dependants whenever the records are
present, then the calibration block.  Any wrap failure propagates
(`fileHandle.write(None)` raises `TypeError`). -/
def writePost (st : ASDrec) : Option (List (Sect × List Nat)) :=
  if 2 ≤ st.asdFileVersion then
    (refHeaderChunk st).bind fun c1 =>
    (refDataChunk st).bind fun c2 =>
    (classifierChunk st).bind fun c3 =>
    (dependantsChunk st).bind fun c4 =>
    (calibBlock st).bind fun c5 =>
    some (c1 ++ c2 ++ c3 ++ c4 ++ c5)
  else some []

/-- Metadata step of the write driver (lines 180-184). -/
def metadataChunk (st : ASDrec) : Option (List (Sect × List Nat)) :=
  match st.metadata with
  | none => some []
  | some md => (wrap_metadata md).map (fun b => [(Sect.metadata, b)])

/-- Spectrum step of the write driver (lines 185-189) together with
everything nested below it (`writePost`). -/
def spectrumChunkAndPost (st : ASDrec) : Option (List (Sect × List Nat)) :=
  match st.spectrumData with
  | none => some []
  | some sd =>
      (match st.metadata with
       | none => none
       | some md => wrap_spectra md.channels sd.spectra).bind fun sb =>
      (writePost st).bind fun post =>
      some ((Sect.spectrum, sb) :: post)

/-- `ASDFile.write` (lines 168-253) as the ordered list of
`fileHandle.write` calls, each tagged with its section.  `none` models an
exception escaping `write` (the destination file is left partial in that
case; nothing about the file system is modelled).  With a non-positive
version but data present, the never-assigned local `offset` raises
`NameError` at the first `offset +=`. -/
def ASDwriteChunks (st : ASDrec) : Option (List (Sect × List Nat)) :=
  if st.asdFileVersion ≤ 0 then
    if st.metadata.isSome ∨ st.spectrumData.isSome then none
    else some (bomChunk st)
  else
    (setFileVersion st.asdFileVersion).bind fun vb =>
    (metadataChunk st).bind fun mdChunks =>
    (spectrumChunkAndPost st).bind fun rest =>
    some ((Sect.version, vb) :: mdChunks ++ rest ++ bomChunk st)

/-- The byte stream `ASDFile.write` produces. -/
def ASDwriteBytes (st : ASDrec) : Option (List Nat) :=
  (ASDwriteChunks st).map (fun cs => (cs.map Prod.snd).flatten)

/-! ## Concrete streams used by the claim theorems -/

/-- A well-formed version-1 metadata block (481 bytes): comments begin
with a NUL byte followed by `'A'`; `when` is 2000-01-01 00:00:00 with the
correct on-disk weekday (Sunday-based 6) and day-of-year 0; the
wavelength step is the float32 `1.0` (bytes `00 00 80 3F`); `channels` is
1; every other field is zero. -/
def mdBlock1 : List Nat :=
  (0 :: 65 :: List.replicate 155 0)
    ++ [0, 0, 0, 0, 0, 0, 1, 0, 0, 0, 100, 0, 6, 0, 0, 0, 0, 0]
    ++ [0, 0, 0, 0]
    ++ [0, 0, 0, 0]
    ++ [0]
    ++ [0, 0, 0, 0]
    ++ [0, 0, 0, 0]
    ++ [0, 0, 128, 63]
    ++ [0, 0, 0, 0, 0]
    ++ [1, 0]
    ++ List.replicate 128 0
    ++ List.replicate 56 0
    ++ [0, 0, 0, 0]
    ++ [0, 0, 0, 0, 0, 0, 0, 0]
    ++ List.replicate 16 0
    ++ [0, 0]
    ++ [0]
    ++ [0, 0, 0, 0]
    ++ [0, 0, 0, 0, 0, 0]
    ++ [0]
    ++ [0, 0, 0, 0]
    ++ [0, 0, 0, 0, 0, 0, 0, 0]
    ++ [0, 0, 0, 0, 0, 0, 0, 0]
    ++ List.replicate 27 0
    ++ List.replicate 5 0

/-- A well-formed 492-byte version-1 file (`"ASD"`, the metadata block,
one all-zero float64 spectrum channel), with no trailer. -/
def fileV1 : List Nat := [65, 83, 68] ++ mdBlock1 ++ List.replicate 8 0

/-- A version-2 file: the same metadata and spectrum, then a reference
file header whose Boolean bytes are `01 00` — neither sentinel — followed
by the bytes of two int64 timestamps, an empty description and a
one-channel reference spectrum that would all parse fine. -/
def fileV2bad : List Nat :=
  [97, 115, 50] ++ mdBlock1 ++ List.replicate 8 0
    ++ [1, 0] ++ List.replicate 16 0 ++ [0, 0] ++ List.replicate 8 0

/-- The metadata record `parse_metadata` produces from `fileV1` (spelled
out for use in concrete theorems). -/
def mdOfF1 : MetadataB :=
  { comments := [65]
    whenDT := ⟨2000, 1, 1, 0, 0, 0⟩
    daylighSavingsFlag := 0
    programVersion := 0, fileVersion := 0, iTime := 0, darkCorrected := 0
    darkTime := 0, dataType := 0, referenceTime := 0
    channel1Wavelength := [0, 0, 0, 0]
    wavelengthStep := [0, 0, 128, 63]
    dataFormat := 0, old_darkCurrentCount := 0, old_refCount := 0
    old_sampleCount := 0, application := 0
    channels := 1
    appData := List.replicate 128 0
    gpsData := List.replicate 56 0
    intergrationTime_ms := 0, fo := 0, darkCurrentCorrention := 0
    calibrationSeries := 0, instrumentNum := 0
    yMin := [0, 0, 0, 0], yMax := [0, 0, 0, 0]
    xMin := [0, 0, 0, 0], xMax := [0, 0, 0, 0]
    ipNumBits := 0, xMode := 0
    flags1 := 0, flags2 := 0, flags3 := 0, flags4 := 0
    darkCurrentCount := 0, refCount := 0, sampleCount := 0
    instrument := 0, calBulbID := 0
    swir1Gain := 0, swir2Gain := 0, swir1Offset := 0, swir2Offset := 0
    splice1_wavelength := [0, 0, 0, 0], splice2_wavelength := [0, 0, 0, 0]
    smartDetectorType := List.replicate 27 0
    spare1 := 0, spare2 := 0, spare3 := 0, spare4 := 0, spare5 := 0 }

/-- An empty classifier record (count 0, twenty empty strings), wrappable
without error. -/
def cd0 : ClassifierB := ⟨0, 0, List.replicate 20 (some []), 0, []⟩

/-- A hand-assembled aggregate: the decoded `fileV1` contents, but with
declared version 2 and a populated classifier record. -/
def st3 : ASDrec :=
  { ASDread fileV1 with asdFileVersion := 2, classifierData := some cd0 }

/-! ## Claim theorems -/

set_option maxRecDepth 1000000
set_option maxHeartbeats 2000000

/-- C2: the claim says normalisation multiplies channels `[s2, end)` by
`swir2Gain / 2048`.  The core implementation multiplies them by
`swir1Gain / 2048` (its own trailing comment and the development copy use
`swir2Gain`): on the spectrum `[1, 1, 1]` with splices `(1, 2)`,
integration 2 ms, `swir1Gain = 100`, `swir2Gain = 200`, channel 2 comes
out as `100/2048`, not the claimed `200/2048`.  (The development copy
yields the claimed value on the same input, confirming the slip.) -/
theorem c2_normalise_third_segment_uses_swir1Gain :
    normalise_spectrum_core [1, 1, 1] 1 2 2 100 200
      = [1 / 2, 100 / 2048, 100 / 2048]
    ∧ normalise_spectrum_core [1, 1, 1] 1 2 2 100 200
      ≠ [1 / 2, 100 / 2048, 200 / 2048]
    ∧ normalise_spectrum_dev [1, 1, 1] 1 2 2 100 200
      = [1 / 2, 100 / 2048, 200 / 2048] := by
  refine ⟨?_, ?_, ?_⟩
  · norm_num [normalise_spectrum_core, pySliceIdx, pyTrunc]
  · norm_num [normalise_spectrum_core, pySliceIdx, pyTrunc]
  · norm_num [normalise_spectrum_dev, pySliceIdx, pyTrunc]

/-- C8: for every offset inside the buffer, the Boolean decoder reads the
two bytes at the offset and yields true exactly on `FF FF`, false exactly
on `00 00`, and the failure outcome on anything else; and the Boolean
encoder only ever emits one of the two sentinels. -/
theorem c8_boolean_codec :
    (∀ (s : List Nat) (off : Nat), off < s.length →
      ((s.drop off).take 2 = [255, 255] → parse_Bool s off = some (true, off + 2))
      ∧ ((s.drop off).take 2 = [0, 0] → parse_Bool s off = some (false, off + 2))
      ∧ ((s.drop off).take 2 ≠ [255, 255] → (s.drop off).take 2 ≠ [0, 0] →
          parse_Bool s off = none))
    ∧ (∀ b : Bool, wrap_Bool b = [255, 255] ∨ wrap_Bool b = [0, 0]) := by
  constructor
  · intro s off h
    refine ⟨fun h1 => ?_, fun h2 => ?_, fun h1 h2 => ?_⟩
    · simp [parse_Bool, h, h1]
    · simp [parse_Bool, h, h2]
    · simp [parse_Bool, h, h1, h2]
  · intro b
    cases b
    · exact Or.inr rfl
    · exact Or.inl rfl

/-- Witness for C8 at concrete inputs. -/
theorem c8_boolean_codec_witness :
    parse_Bool [255, 255] 0 = some (true, 2) ∧ wrap_Bool false = [0, 0] := by
  refine ⟨(c8_boolean_codec.1 [255, 255] 0 (by decide)).1 (by decide), ?_⟩
  exact (c8_boolean_codec.2 false).resolve_left (by decide)

/-- C9 counterexample: the claim promises a recomputed axis of length
`channels` after every update of a wavelength-relevant field, but with a
metadata whose `wavelengthStep` is `0` (a representable, decodable value)
the recomputation calls `np.arange` with step `0`, which raises
`ZeroDivisionError` out of `update`; no axis exists. -/
theorem c9_update_with_zero_step_raises :
    ASDupdate ⟨some ⟨0, 0, 1⟩, none⟩ (WUpd.channel1Wavelength 5) = none := rfl

/-- C9 as amended: for metadata present and any update of
`channel1Wavelength`, `channels` or `wavelengthStep` whose resulting step
is nonzero, `update` succeeds and the recomputed axis has length
`channels` and (when there is at least one channel) starts at
`channel1Wavelength` — in particular at the updated `x` after
`update('channel1Wavelength', x)`. -/
theorem c9_wavelength_axis_after_update :
    ∀ (st : WaveSt) (md : MetaW) (u : WUpd),
      st.metadata = some md → wuRelevant u = true →
      (applyWUpd md u).wavelengthStep ≠ 0 →
      ∃ ax, ASDupdate st u
          = some { metadata := some (applyWUpd md u), wavelengths := some ax }
        ∧ ax.length = (applyWUpd md u).channels
        ∧ (0 < (applyWUpd md u).channels →
            ax.head? = some (applyWUpd md u).channel1Wavelength) := by
  intro st md u hmd hrel hstep
  have harange : pyArangeQ (applyWUpd md u).channel1Wavelength
      ((applyWUpd md u).channel1Wavelength
        + ((applyWUpd md u).channels : ℚ) * (applyWUpd md u).wavelengthStep)
      (applyWUpd md u).wavelengthStep
      = some ((List.range (applyWUpd md u).channels).map
          (fun (i : ℕ) => (applyWUpd md u).channel1Wavelength
            + (i : ℚ) * (applyWUpd md u).wavelengthStep)) := by
    unfold pyArangeQ
    rw [if_neg hstep]
    have h1 : ((applyWUpd md u).channel1Wavelength
        + ((applyWUpd md u).channels : ℚ) * (applyWUpd md u).wavelengthStep
        - (applyWUpd md u).channel1Wavelength) / (applyWUpd md u).wavelengthStep
        = (((applyWUpd md u).channels : ℤ) : ℚ) := by
      push_cast
      field_simp
    rw [h1, Int.ceil_intCast, Int.toNat_natCast]
  refine ⟨(List.range (applyWUpd md u).channels).map
      (fun (i : ℕ) => (applyWUpd md u).channel1Wavelength
        + (i : ℚ) * (applyWUpd md u).wavelengthStep), ?_, ?_, ?_⟩
  · simp only [ASDupdate, hmd, hrel, if_true]
    rw [harange]
    rfl
  · simp
  · intro hpos
    obtain ⟨k, hk⟩ := Nat.exists_eq_add_of_lt hpos
    rw [hk]
    have : List.range (0 + k + 1) = 0 :: List.map Nat.succ (List.range (0 + k)) :=
      List.range_succ_eq_map (0 + k)
    rw [this]
    simp

/-- Witness for C9 as amended: updating `channel1Wavelength` to 5 on a
3-channel, step-2 metadata. -/
theorem c9_wavelength_axis_witness :
    ∃ ax, ASDupdate ⟨some ⟨0, 2, 3⟩, none⟩ (WUpd.channel1Wavelength 5)
        = some { metadata := some (applyWUpd ⟨0, 2, 3⟩ (WUpd.channel1Wavelength 5)),
                 wavelengths := some ax }
      ∧ ax.length = (applyWUpd ⟨0, 2, 3⟩ (WUpd.channel1Wavelength 5)).channels
      ∧ (0 < (applyWUpd ⟨0, 2, 3⟩ (WUpd.channel1Wavelength 5)).channels →
          ax.head? = some (applyWUpd ⟨0, 2, 3⟩
            (WUpd.channel1Wavelength 5)).channel1Wavelength) :=
  c9_wavelength_axis_after_update ⟨some ⟨0, 2, 3⟩, none⟩ ⟨0, 2, 3⟩
    (WUpd.channel1Wavelength 5) rfl rfl (by norm_num [applyWUpd])

/-- Destructure one `Option` bind that succeeded. -/
theorem optBind_some {α β : Type} {x : Option α} {f : α → Option β} {b : β}
    (h : (x >>= f) = some b) : ∃ a, x = some a ∧ f a = some b := by
  cases x with
  | none => cases h
  | some a => exact ⟨a, rfl, h⟩

/-- Members of the trailer chunk list: always the trailer tag, and only
when the trailer buffer was remembered. -/
theorem bomChunk_mem (st : ASDrec) :
    ∀ c ∈ bomChunk st, c.1 = Sect.trailer ∧ st.bom ≠ none := by
  intro c hc
  cases hb : st.bom with
  | none => simp only [bomChunk, hb] at hc; cases hc
  | some b =>
      simp only [bomChunk, hb] at hc
      by_cases hbe : b = []
      · rw [if_pos hbe] at hc; cases hc
      · rw [if_neg hbe] at hc
        have hcb := List.mem_singleton.mp hc
        subst hcb
        exact ⟨rfl, by simp [hb]⟩

/-- Members of a `(tag, bytes)` singleton produced through `Option.map`. -/
theorem mapTag_mem {t : Sect} {o : Option (List Nat)} {cs : List (Sect × List Nat)}
    (h : o.map (fun b => [(t, b)]) = some cs) : ∀ c ∈ cs, c.1 = t := by
  rw [Option.map_eq_some'] at h
  obtain ⟨b, _, hb⟩ := h
  subst hb
  intro c hc
  rw [List.mem_singleton.mp hc]

theorem refHeaderChunk_mem (st : ASDrec) (cs : List (Sect × List Nat))
    (h : refHeaderChunk st = some cs) : ∀ c ∈ cs, c.1 = Sect.refHeader := by
  unfold refHeaderChunk at h
  cases href : st.referenceFileHeader with
  | none =>
      rw [href] at h
      obtain rfl : cs = [] := by simpa using h.symm
      intro c hc; cases hc
  | some r => rw [href] at h; exact mapTag_mem h

theorem refDataChunk_mem (st : ASDrec) (cs : List (Sect × List Nat))
    (h : refDataChunk st = some cs) : ∀ c ∈ cs, c.1 = Sect.refData := by
  unfold refDataChunk at h
  cases hrd : st.referenceData with
  | none =>
      rw [hrd] at h
      obtain rfl : cs = [] := by simpa using h.symm
      intro c hc; cases hc
  | some rd =>
      rw [hrd] at h
      cases hmd : st.metadata with
      | none => rw [hmd] at h; cases h
      | some md => rw [hmd] at h; exact mapTag_mem h

theorem classifierChunk_mem (st : ASDrec) (cs : List (Sect × List Nat))
    (h : classifierChunk st = some cs) : ∀ c ∈ cs, c.1 = Sect.classifier := by
  unfold classifierChunk at h
  cases hcl : st.classifierData with
  | none =>
      rw [hcl] at h
      obtain rfl : cs = [] := by simpa using h.symm
      intro c hc; cases hc
  | some cd => rw [hcl] at h; exact mapTag_mem h

theorem dependantsChunk_mem (st : ASDrec) (cs : List (Sect × List Nat))
    (h : dependantsChunk st = some cs) : ∀ c ∈ cs, c.1 = Sect.dependants := by
  unfold dependantsChunk at h
  cases hdp : st.dependants with
  | none =>
      rw [hdp] at h
      obtain rfl : cs = [] := by simpa using h.symm
      intro c hc; cases hc
  | some d => rw [hdp] at h; exact mapTag_mem h

theorem calibHeaderChunk_mem (st : ASDrec) (cs : List (Sect × List Nat))
    (h : calibHeaderChunk st = some cs) : ∀ c ∈ cs, c.1 = Sect.calibHeader := by
  unfold calibHeaderChunk at h
  cases hch : st.calibrationHeader with
  | none =>
      rw [hch] at h
      obtain rfl : cs = [] := by simpa using h.symm
      intro c hc; cases hc
  | some hh => rw [hch] at h; exact mapTag_mem h

theorem auditSigChunks_mem (st : ASDrec) (cs : List (Sect × List Nat))
    (h : auditSigChunks st = some cs) :
    ∀ c ∈ cs, 8 ≤ st.asdFileVersion
      ∧ (c.1 = Sect.auditLog ∨ c.1 = Sect.signature) := by
  unfold auditSigChunks at h
  by_cases h8 : 8 ≤ st.asdFileVersion
  case neg =>
    rw [if_neg h8] at h
    obtain rfl : cs = [] := by simpa using h.symm
    intro c hc; cases hc
  case pos =>
    rw [if_pos h8] at h
    obtain ⟨al, _, h⟩ := optBind_some h
    obtain ⟨ab, _, h⟩ := optBind_some h
    obtain ⟨sg, _, h⟩ := optBind_some h
    obtain ⟨sb, _, h⟩ := optBind_some h
    obtain rfl : cs = [(Sect.auditLog, ab), (Sect.signature, sb)] := by
      simpa using h.symm
    intro c hc
    simp only [List.mem_cons, List.not_mem_nil, or_false] at hc
    rcases hc with hc | hc
    · rw [hc]; exact ⟨h8, Or.inl rfl⟩
    · rw [hc]; exact ⟨h8, Or.inr rfl⟩

theorem calibBlock_mem (st : ASDrec) (cs : List (Sect × List Nat))
    (h : calibBlock st = some cs) :
    ∀ c ∈ cs,
      (7 ≤ st.asdFileVersion ∧ (c.1 = Sect.calibHeader ∨ c.1 = Sect.calibSeries))
      ∨ (8 ≤ st.asdFileVersion ∧ (c.1 = Sect.auditLog ∨ c.1 = Sect.signature)) := by
  unfold calibBlock at h
  by_cases h7 : 7 ≤ st.asdFileVersion
  case neg =>
    rw [if_neg h7] at h
    obtain rfl : cs = [] := by simpa using h.symm
    intro c hc; cases hc
  case pos =>
    rw [if_pos h7] at h
    obtain ⟨hc1, hhc, h⟩ := optBind_some h
    obtain ⟨series, _, h⟩ := optBind_some h
    obtain ⟨v8, hv8, h⟩ := optBind_some h
    obtain rfl : cs = hc1 ++ series.map (fun b => (Sect.calibSeries, b)) ++ v8 := by
      simpa using h.symm
    intro c hc
    rcases List.mem_append.mp hc with hc | hc
    · rcases List.mem_append.mp hc with hc | hc
      · exact Or.inl ⟨h7, Or.inl (calibHeaderChunk_mem st hc1 hhc c hc)⟩
      · obtain ⟨b, _, hb⟩ := List.mem_map.mp hc
        exact Or.inl ⟨h7, Or.inr (by rw [← hb])⟩
    · exact Or.inr (auditSigChunks_mem st v8 hv8 c hc)

/-- Tag classification for the `version ≥ 2` portion of the write
driver: every chunk is a post-spectrum section; calibration chunks only
appear at version at least 7, audit/signature chunks only at version at
least 8; nothing is emitted below version 2. -/
theorem writePost_mem (st : ASDrec) (cs : List (Sect × List Nat))
    (h : writePost st = some cs) :
    ∀ c ∈ cs, 2 ≤ st.asdFileVersion
      ∧ ((c.1 = Sect.refHeader ∨ c.1 = Sect.refData ∨ c.1 = Sect.classifier
            ∨ c.1 = Sect.dependants)
        ∨ (7 ≤ st.asdFileVersion ∧ (c.1 = Sect.calibHeader ∨ c.1 = Sect.calibSeries))
        ∨ (8 ≤ st.asdFileVersion ∧ (c.1 = Sect.auditLog ∨ c.1 = Sect.signature))) := by
  unfold writePost at h
  by_cases hv : 2 ≤ st.asdFileVersion
  case neg =>
    rw [if_neg hv] at h
    obtain rfl : cs = [] := by simpa using h.symm
    intro c hc; cases hc
  case pos =>
    rw [if_pos hv] at h
    obtain ⟨c1, hc1, h⟩ := optBind_some h
    obtain ⟨c2, hc2, h⟩ := optBind_some h
    obtain ⟨c3, hc3, h⟩ := optBind_some h
    obtain ⟨c4, hc4, h⟩ := optBind_some h
    obtain ⟨c5, hc5, h⟩ := optBind_some h
    obtain rfl : cs = c1 ++ c2 ++ c3 ++ c4 ++ c5 := by simpa using h.symm
    intro c hc
    refine ⟨hv, ?_⟩
    simp only [List.mem_append] at hc
    rcases hc with ((((hc | hc) | hc) | hc) | hc)
    · exact Or.inl (Or.inl (refHeaderChunk_mem st c1 hc1 c hc))
    · exact Or.inl (Or.inr (Or.inl (refDataChunk_mem st c2 hc2 c hc)))
    · exact Or.inl (Or.inr (Or.inr (Or.inl (classifierChunk_mem st c3 hc3 c hc))))
    · exact Or.inl (Or.inr (Or.inr (Or.inr (dependantsChunk_mem st c4 hc4 c hc))))
    · rcases calibBlock_mem st c5 hc5 c hc with h5 | h5
      · exact Or.inr (Or.inl h5)
      · exact Or.inr (Or.inr h5)

theorem metadataChunk_mem (st : ASDrec) (cs : List (Sect × List Nat))
    (h : metadataChunk st = some cs) : ∀ c ∈ cs, c.1 = Sect.metadata := by
  unfold metadataChunk at h
  cases hmd : st.metadata with
  | none =>
      rw [hmd] at h
      obtain rfl : cs = [] := by simpa using h.symm
      intro c hc; cases hc
  | some md => rw [hmd] at h; exact mapTag_mem h

/-- Discharge the per-tag gate obligations for a chunk known to carry one
of the section tags of `writePost`. -/
theorem postTag_facts (v : Int) (P : Prop) (t : Sect)
    (hg : (t = Sect.refHeader ∨ t = Sect.refData ∨ t = Sect.classifier
        ∨ t = Sect.dependants)
      ∨ (7 ≤ v ∧ (t = Sect.calibHeader ∨ t = Sect.calibSeries))
      ∨ (8 ≤ v ∧ (t = Sect.auditLog ∨ t = Sect.signature)))
    (h2 : 2 ≤ v) :
    ((t = Sect.calibHeader ∨ t = Sect.calibSeries) → 7 ≤ v)
    ∧ ((t = Sect.auditLog ∨ t = Sect.signature) → 8 ≤ v)
    ∧ ((t = Sect.refHeader ∨ t = Sect.refData ∨ t = Sect.classifier
        ∨ t = Sect.dependants) → 2 ≤ v)
    ∧ (t = Sect.trailer → P) := by
  cases t <;> simp_all

/-- Same obligations for the version, metadata and spectrum chunks. -/
theorem plainTag_facts (v : Int) (P : Prop) (t : Sect)
    (hg : t = Sect.version ∨ t = Sect.metadata ∨ t = Sect.spectrum) :
    ((t = Sect.calibHeader ∨ t = Sect.calibSeries) → 7 ≤ v)
    ∧ ((t = Sect.auditLog ∨ t = Sect.signature) → 8 ≤ v)
    ∧ ((t = Sect.refHeader ∨ t = Sect.refData ∨ t = Sect.classifier
        ∨ t = Sect.dependants) → 2 ≤ v)
    ∧ (t = Sect.trailer → P) := by
  cases t <;> simp_all

/-- Same obligations for a trailer chunk known to come with a remembered
trailer buffer. -/
theorem trailerTag_facts (v : Int) (P : Prop) (t : Sect)
    (hg : t = Sect.trailer) (hP : P) :
    ((t = Sect.calibHeader ∨ t = Sect.calibSeries) → 7 ≤ v)
    ∧ ((t = Sect.auditLog ∨ t = Sect.signature) → 8 ≤ v)
    ∧ ((t = Sect.refHeader ∨ t = Sect.refData ∨ t = Sect.classifier
        ∨ t = Sect.dependants) → 2 ≤ v)
    ∧ (t = Sect.trailer → P) := by
  cases t <;> simp_all

/-- Classification of every chunk the write driver can emit: calibration
chunks imply version at least 7, audit/signature chunks version at least
8, the post-spectrum sections version at least 2, and a trailer chunk
implies a remembered trailer buffer. -/
theorem ASDwriteChunks_mem (st : ASDrec) (cs : List (Sect × List Nat))
    (h : ASDwriteChunks st = some cs) :
    ∀ c ∈ cs,
      ((c.1 = Sect.calibHeader ∨ c.1 = Sect.calibSeries) → 7 ≤ st.asdFileVersion)
      ∧ ((c.1 = Sect.auditLog ∨ c.1 = Sect.signature) → 8 ≤ st.asdFileVersion)
      ∧ ((c.1 = Sect.refHeader ∨ c.1 = Sect.refData ∨ c.1 = Sect.classifier
            ∨ c.1 = Sect.dependants) → 2 ≤ st.asdFileVersion)
      ∧ (c.1 = Sect.trailer → st.bom ≠ none) := by
  unfold ASDwriteChunks at h
  by_cases h0 : st.asdFileVersion ≤ 0
  case pos =>
    rw [if_pos h0] at h
    by_cases hp : st.metadata.isSome ∨ st.spectrumData.isSome
    · rw [if_pos hp] at h; cases h
    · rw [if_neg hp] at h
      obtain rfl : cs = bomChunk st := by simpa using h.symm
      intro c hc
      obtain ⟨ht, hb⟩ := bomChunk_mem st c hc
      exact trailerTag_facts _ _ _ ht hb
  case neg =>
    rw [if_neg h0] at h
    obtain ⟨vb, _, h⟩ := optBind_some h
    obtain ⟨mdChunks, hmdc, h⟩ := optBind_some h
    obtain ⟨rest, hrest, h⟩ := optBind_some h
    obtain rfl : cs = (Sect.version, vb) :: mdChunks ++ rest ++ bomChunk st := by
      simpa using h.symm
    intro c hc
    rcases List.mem_cons.mp hc with rfl | hc
    · exact plainTag_facts _ _ _ (Or.inl rfl)
    rcases List.mem_append.mp hc with hc | hc
    rcases List.mem_append.mp hc with hc | hc
    · exact plainTag_facts _ _ _ (Or.inr (Or.inl (metadataChunk_mem st mdChunks hmdc c hc)))
    · unfold spectrumChunkAndPost at hrest
      cases hsd : st.spectrumData with
      | none =>
          rw [hsd] at hrest
          obtain rfl : rest = [] := by simpa using hrest.symm
          cases hc
      | some sd =>
          rw [hsd] at hrest
          obtain ⟨sb, _, hrest⟩ := optBind_some hrest
          obtain ⟨post, hpost, hrest⟩ := optBind_some hrest
          obtain rfl : rest = (Sect.spectrum, sb) :: post := by simpa using hrest.symm
          rcases List.mem_cons.mp hc with rfl | hc
          · exact plainTag_facts _ _ _ (Or.inr (Or.inr rfl))
          · obtain ⟨hv2, hgroups⟩ := writePost_mem st post hpost c hc
            exact postTag_facts _ _ _ hgroups hv2
    · obtain ⟨ht, hb⟩ := bomChunk_mem st c hc
      exact trailerTag_facts _ _ _ ht hb

/-- C3 counterexample: the claim says ClassifierData appears in the
emitted stream only when the declared version is at least 6, but `write`
gates the classifier (and dependants) emission only behind
`version >= 2`: an aggregate with declared version 2 and a populated
classifier record emits a classifier section. -/
theorem c3_classifier_emitted_at_version_2 :
    st3.asdFileVersion = 2
    ∧ (ASDwriteChunks st3).map (fun cs => cs.map Prod.fst)
        = some [Sect.version, Sect.metadata, Sect.spectrum, Sect.classifier] :=
  ⟨rfl, rfl⟩

/-- C3 as amended: in every emitted stream, CalibrationHeader and
CalibrationSeries chunks appear only when the declared version is at
least 7 and AuditLog and Signature chunks only when it is at least 8, as
claimed; ClassifierData and Dependents, however, are gated only behind
version at least 2 (they appear whenever the record is populated there). -/
theorem c3_version_gates_on_write :
    ∀ (st : ASDrec) (cs : List (Sect × List Nat)), ASDwriteChunks st = some cs →
      ((Sect.calibHeader ∈ cs.map Prod.fst ∨ Sect.calibSeries ∈ cs.map Prod.fst) →
        7 ≤ st.asdFileVersion)
      ∧ ((Sect.auditLog ∈ cs.map Prod.fst ∨ Sect.signature ∈ cs.map Prod.fst) →
        8 ≤ st.asdFileVersion)
      ∧ ((Sect.classifier ∈ cs.map Prod.fst ∨ Sect.dependants ∈ cs.map Prod.fst) →
        2 ≤ st.asdFileVersion) := by
  intro st cs h
  have hm := ASDwriteChunks_mem st cs h
  refine ⟨?_, ?_, ?_⟩
  · rintro (ht | ht) <;>
      obtain ⟨c, hc, he⟩ := List.mem_map.mp ht
    · exact (hm c hc).1 (Or.inl he)
    · exact (hm c hc).1 (Or.inr he)
  · rintro (ht | ht) <;>
      obtain ⟨c, hc, he⟩ := List.mem_map.mp ht
    · exact (hm c hc).2.1 (Or.inl he)
    · exact (hm c hc).2.1 (Or.inr he)
  · rintro (ht | ht) <;>
      obtain ⟨c, hc, he⟩ := List.mem_map.mp ht
    · exact (hm c hc).2.2.1 (Or.inr (Or.inr (Or.inl he)))
    · exact (hm c hc).2.2.1 (Or.inr (Or.inr (Or.inr he)))

/-- Witness for C3 as amended, at the version-2 aggregate `st3`. -/
theorem c3_version_gates_witness : 2 ≤ st3.asdFileVersion := by
  cases h : ASDwriteChunks st3 with
  | none => exact absurd h (by decide)
  | some cs =>
      refine (c3_version_gates_on_write st3 cs h).2.2 (Or.inl ?_)
      have htags : cs.map Prod.fst
          = [Sect.version, Sect.metadata, Sect.spectrum, Sect.classifier] := by
        have h2 := c3_classifier_emitted_at_version_2.2
        rw [h] at h2
        simpa using h2
      rw [htags]
      decide

/-- C10 counterexample: the claim says that after reading a file without
the trailer, `write` raises `AttributeError` at the `if self.__bom:`
check.  In fact the class's catch-all `__getattr__` returns `None` for
the never-assigned attribute, so `write` completes normally (it produces
a chunk list — no exception) and simply appends no trailer. -/
theorem c10_write_succeeds_without_bom :
    (ASDread fileV1).bom = none
    ∧ (ASDwriteChunks (ASDread fileV1)).map (fun cs => cs.map Prod.fst)
        = some [Sect.version, Sect.metadata, Sect.spectrum] :=
  ⟨rfl, rfl⟩

/-- C10 as amended: `__bom` is indeed never initialised by the
constructor, but for every aggregate whose trailer buffer is unset, a
completing `write` emits no trailer chunk at all (the `__getattr__`
fallback turns the check into `if None:`), rather than raising
`AttributeError`. -/
theorem c10_no_trailer_when_bom_unset :
    ∀ (st : ASDrec) (cs : List (Sect × List Nat)),
      st.bom = none → ASDwriteChunks st = some cs →
      Sect.trailer ∉ cs.map Prod.fst := by
  intro st cs hb h ht
  obtain ⟨c, hc, he⟩ := List.mem_map.mp ht
  exact (ASDwriteChunks_mem st cs h c hc).2.2.2 he hb

/-- Witness for C10 as amended, at the aggregate decoded from the
trailer-less `fileV1`. -/
theorem c10_no_trailer_witness :
    Sect.trailer ∉ ((ASDwriteChunks (ASDread fileV1)).getD []).map Prod.fst := by
  cases h : ASDwriteChunks (ASDread fileV1) with
  | none => simp
  | some cs =>
      simp only [Option.getD_some]
      exact c10_no_trailer_when_bom_unset (ASDread fileV1) cs rfl h

/-- C1: decoding the well-formed, trailer-less version-1 file `fileV1`
and re-encoding it does not reproduce the original byte stream.  `write`
completes (the result is `some`), but `__parse_metadata` strips NUL bytes
from both ends of the comments field while `__wrap_metadata` re-pads on
the right only, so the leading NUL of the comments moves: the output
carries `'A'` (65) at byte 3 where the input had 0.  This contradicts the
byte-identical round trip the repository's own batch test
(`testing_batchReadAndWrite.py`) checks for. -/
theorem c1_roundtrip_fails_on_fileV1 :
    (ASDwriteBytes (ASDread fileV1)).isSome = true
    ∧ ASDwriteBytes (ASDread fileV1) ≠ some fileV1
    ∧ (ASDwriteBytes (ASDread fileV1)).map (fun w => w.get? 3) = some (some 65)
    ∧ fileV1.get? 3 = some 0 := by
  refine ⟨rfl, ?_, rfl, rfl⟩
  decide

/-- C4 counterexample: in `fileV2bad` the reference-file-header Boolean
bytes are `01 00` (neither sentinel).  `read` leaves the header record
unset as claimed, but it does not go on to parse ReferenceData at the
offset it handed the failed section: the reference-data record is also
left unset — even though a spectrum block parse at exactly that offset
(492) would have succeeded. -/
theorem c4_failed_section_blocks_reference_data :
    (ASDread fileV2bad).referenceFileHeader = none
    ∧ (ASDread fileV2bad).referenceData = none
    ∧ parse_spectra fileV2bad (some 1) (OffV.num 492)
        = SpectraRes.okS [1, 0, 0, 0, 0, 0, 0, 0] 500 :=
  ⟨rfl, rfl, rfl⟩

/-- C4 as amended: when the reference-header Boolean at offset `n` is
corrupt (any two bytes other than the sentinels), the section parser
records no header and returns the poisoned offset `None`; the driver then
hands that `None` to the next section, whose decorator rejects it, so
ReferenceData is left unset rather than parsed at the original offset. -/
theorem c4_corrupt_boolean_poisons_offset :
    ∀ (s : List Nat) (mdCh : Option Nat) (n : Nat),
      n < s.length →
      (s.drop n).take 2 ≠ [255, 255] → (s.drop n).take 2 ≠ [0, 0] →
      parse_referenceFileHeader s (OffV.num n) = SecRes.ret none OffV.pynone
      ∧ (secFold (none : Option SpectData) OffV.pynone
          (parse_referenceData s mdCh OffV.pynone)) = (none, OffV.pypair) := by
  intro s mdCh n hn h1 h2
  constructor
  · have hb : parse_Bool s n = none := by
      unfold parse_Bool
      rw [if_pos hn]
      simp only [h1, h2, if_false]
    simp only [parse_referenceFileHeader]
    rw [if_pos hn, hb]
  · rfl

/-- Witness for C4 as amended, at `fileV2bad` and its post-spectrum
offset 492. -/
theorem c4_corrupt_boolean_witness :
    parse_referenceFileHeader fileV2bad (OffV.num 492) = SecRes.ret none OffV.pynone
    ∧ (secFold (none : Option SpectData) OffV.pynone
        (parse_referenceData fileV2bad (some 1) OffV.pynone)) = (none, OffV.pypair) :=
  c4_corrupt_boolean_poisons_offset fileV2bad (some 1) 492 (by decide)
    (by decide) (by decide)

/-- C7 counterexample: the claim says the metadata parser advances the
offset by 481 for every input buffer, regardless of how individual fields
are interpreted.  On `fileV1` with the `when` month byte set to 12 (a
thirteenth month), the `datetime` constructor raises, the parse aborts
and returns `None` — no offset at all — although the buffer holds well
over 481 bytes past the offset. -/
theorem c7_parser_fails_on_invalid_month :
    parse_metadata (fileV1.set 168 12) 3 = none
    ∧ 3 + 481 ≤ (fileV1.set 168 12).length :=
  ⟨rfl, by decide⟩

/-- C7 as amended: the emitted metadata block is exactly 481 bytes
(emission fails rather than returning any other length), and whenever the
metadata parser succeeds it advances the offset by exactly 481; a buffer
whose fields cannot be interpreted makes it fail instead. -/
theorem c7_metadata_block_size :
    (∀ (m : MetadataB) (bs : List Nat), wrap_metadata m = some bs → bs.length = 481)
    ∧ (∀ (s : List Nat) (off : Nat) (m : MetadataB) (off2 : Nat),
        parse_metadata s off = some (m, off2) → off2 = off + 481) := by
  constructor
  · intro m bs h
    unfold wrap_metadata at h
    obtain ⟨w, _, h⟩ := optBind_some h
    obtain ⟨chunks, _, h⟩ := optBind_some h
    by_cases hlen : chunks.flatten.length = 481
    · rw [if_pos hlen] at h
      obtain rfl : bs = chunks.flatten := by simpa using h.symm
      exact hlen
    · rw [if_neg hlen] at h
      cases h
  · intro s off m off2 h
    unfold parse_metadata at h
    obtain ⟨u, _, h⟩ := optBind_some h
    obtain ⟨wd, _, h⟩ := optBind_some h
    obtain ⟨he, ho⟩ := Prod.mk.injEq .. ▸ Option.some.injEq .. ▸ h
    exact ho.symm

/-- Multiplying anything by the namedtuple/None operand raises. -/
theorem npMul_recOperand (x : PyV) (b : Bool) : npMul x (recOperand b) = none := by
  cases x <;> cases b <;> rfl

/-- The numerator product of both dev radiance branches dies at its first
multiplication: `referenceData` is either the namedtuple or `None`. -/
theorem devRadianceNumer_none (lmp : PyV) (r sp : Bool) (im : ℚ) :
    npProd lmp [recOperand r, recOperand sp, PyV.num im] = none := by
  cases lmp <;> cases r <;> rfl

theorem devRadianceExpr1_none (piv : ℚ) (st : DevRadSt) :
    devRadianceExpr1 piv st = none := by
  unfold devRadianceExpr1
  rw [devRadianceNumer_none]
  rfl

theorem devRadianceExpr2_none (piv : ℚ) (st : DevRadSt) :
    devRadianceExpr2 piv st = none := by
  unfold devRadianceExpr2
  rw [devRadianceNumer_none]
  rfl

/-- C5: under exactly the claim's conditions — version at least 7,
dataType 2, at least three calibration slots populated (with or without
the absolute slot) — the dev `radiance` property returns Python `None`,
never the claimed `lamp·reference·spectrum·integration / (absolute·500·
544·base·π)` array (or its fiber-optic fallback): the product multiplies
the `referenceData`/`spectrumData` namedtuples instead of their
`.spectra` arrays, NumPy raises, and the `except` returns `None`.  (The
core `get_radiance` is worse still: it reads the nonexistent attributes
`calibrationSeries_lamp`/`calibrationSeries_base`, which the catch-all
`__getattr__` resolves to `None`, and raises `TypeError` with no `try`
around it — see `get_radiance_core`.) -/
theorem c5_radiance_returns_python_none :
    ∀ (piv : ℚ) (st : DevRadSt) (hdr : CalibHdrV),
      st.calibrationHeader = some hdr → 3 ≤ hdr.calibrationNum →
      7 ≤ st.asdFileVersion → st.dataType = 2 →
      ((st.calibrationSeriesABS.isSome = true
          ∧ st.calibrationSeriesBSE.isSome = true
          ∧ st.calibrationSeriesLMP.isSome = true)
        ∨ (st.calibrationSeriesABS = none
          ∧ st.calibrationSeriesBSE.isSome = true
          ∧ st.calibrationSeriesLMP.isSome = true
          ∧ st.calibrationSeriesFO.isSome = true)) →
      radiance_dev piv st = Except.ok none := by
  intro piv st hdr hch h3 h7 _ hslots
  unfold radiance_dev
  rw [if_pos h7, hch]
  show (if 3 ≤ hdr.calibrationNum then _ else _) = _
  rw [if_pos h3]
  rcases hslots with ⟨ha, _, hl⟩ | ⟨ha, hb, hl, hf⟩
  · rw [if_pos ⟨ha, hl, hl⟩, devRadianceExpr1_none]
  · rw [if_neg (fun hx => by rw [ha] at hx; exact Bool.false_ne_true hx.1),
      if_pos ⟨hb, hl, hf⟩, devRadianceExpr2_none]

/-- Witness for C5 at a concrete version-7 radiance aggregate with the
absolute, base and lamp slots populated. -/
theorem c5_radiance_witness :
    radiance_dev 3 ⟨7, 2, 17, some ⟨3⟩, some [1], some [1], some [1], none,
      true, true⟩ = Except.ok none :=
  c5_radiance_returns_python_none 3 _ ⟨3⟩ rfl (by decide) (by decide) rfl
    (Or.inl ⟨rfl, rfl, rfl⟩)

/-- One step of the calibration emission loop, under the per-entry
success hypotheses: appends exactly the block of the entry's slot. -/
theorem calibEmitStep_ok (ch : Nat) (series : List CalEntry) (sl : CalSlots)
    (acc : List (List Nat)) (i : Nat) (e : CalEntry) (b : List Nat)
    (hget : series.get? i = some e)
    (htype : e.ctype = 0 ∨ e.ctype = 1 ∨ e.ctype = 2 ∨ e.ctype = 3)
    (hslot : slotGet sl e.ctype = some b) (hlen : b.length = 8 * ch) :
    calibEmitStep ch series sl acc i = some (acc ++ [b]) := by
  unfold calibEmitStep
  rw [hget]
  simp only [Option.some_bind]
  rcases htype with ht | ht | ht | ht <;>
    · simp only [ht] at hslot ⊢
      simp only [slotGet] at hslot
      simp_all [wrap_spectra]

/-- The calibration emission loop over indices `[s0, s0 + k)`. -/
theorem calibEmit_go (ch : Nat) (series : List CalEntry) (sl : CalSlots) :
    ∀ (k s0 : Nat) (acc : List (List Nat)),
      (∀ i, i < k → ∃ e b, series.get? (s0 + i) = some e
          ∧ (e.ctype = 0 ∨ e.ctype = 1 ∨ e.ctype = 2 ∨ e.ctype = 3)
          ∧ slotGet sl e.ctype = some b ∧ b.length = 8 * ch) →
      ∃ l, (List.range' s0 k).foldlM (calibEmitStep ch series sl) acc
            = some (acc ++ l)
        ∧ l.length = k
        ∧ ∀ j, j < k →
            l.get? j = (series.get? (s0 + j)).bind (fun e => slotGet sl e.ctype) := by
  intro k
  induction k with
  | zero =>
      intro s0 acc _
      exact ⟨[], by simp, rfl, fun j hj => absurd hj (by omega)⟩
  | succ n ih =>
      intro s0 acc hh
      obtain ⟨e, b, hget, htype, hslot, hlen⟩ := hh 0 (Nat.succ_pos n)
      rw [Nat.add_zero] at hget
      have hstep := calibEmitStep_ok ch series sl acc s0 e b hget htype hslot hlen
      obtain ⟨l2, hfold, hl2, hg2⟩ := ih (s0 + 1) (acc ++ [b]) (fun i hi => by
        have := hh (i + 1) (by omega)
        rwa [show s0 + (i + 1) = s0 + 1 + i by omega] at this)
      refine ⟨b :: l2, ?_, by simp [hl2], ?_⟩
      · rw [List.range'_succ, List.foldlM_cons, hstep]
        simp [hfold]
      · intro j hj
        cases j with
        | zero =>
            have hget2 : series[s0]? = some e := by
              simpa [List.get?_eq_getElem?] using hget
            simp [hget2, hslot]
        | succ j2 =>
            have := hg2 j2 (by omega)
            rw [show s0 + 1 + j2 = s0 + (j2 + 1) by omega] at this
            simpa using this

/-- The claim's own description of the calibration-series routing on
read: in header order, route the next `channels × 8`-byte block to the
slot named by the entry type, later entries overwriting earlier ones. -/
def calibRouteSpec (s : List Nat) (ch : Nat) :
    List CalEntry → CalSlots → Nat → CalSlots
  | [], sl, _ => sl
  | e :: rest, sl, n =>
      calibRouteSpec s ch rest
        (slotSet sl e.ctype (some ((s.drop n).take (8 * ch)))) (n + 8 * ch)

/-- The read loop follows `calibRouteSpec` whenever the entry types are
recognised and the stream carries all the blocks. -/
theorem calibParseLoop_spec (s : List Nat) (ch : Nat) (hch : 0 < ch) :
    ∀ (entries : List CalEntry) (sl : CalSlots) (n0 : Nat),
      (∀ e ∈ entries, e.ctype = 0 ∨ e.ctype = 1 ∨ e.ctype = 2 ∨ e.ctype = 3) →
      n0 + 8 * ch * entries.length ≤ s.length →
      calibParseLoop s (some ch) entries sl (OffV.num n0)
        = (calibRouteSpec s ch entries sl n0,
           OffV.num (n0 + 8 * ch * entries.length)) := by
  intro entries
  induction entries with
  | nil => intro sl n0 _ _; simp [calibParseLoop, calibRouteSpec]
  | cons e rest ih =>
      intro sl n0 htypes hlen
      have hmul : 8 * ch * (rest.length + 1) = 8 * ch + 8 * ch * rest.length := by
        ring
      have hlen1 : n0 + 8 * ch ≤ s.length := by
        rw [List.length_cons, hmul] at hlen
        omega
      have hn0 : n0 < s.length := by
        have : 0 < 8 * ch := by omega
        omega
      have hsp : parse_spectra s (some ch) (OffV.num n0)
          = SpectraRes.okS ((s.drop n0).take (8 * ch)) (n0 + 8 * ch) := by
        simp only [parse_spectra]
        rw [if_pos hn0]
        unfold readBytes
        rw [if_pos hlen1]
      have htE := htypes e (List.mem_cons_self e rest)
      unfold calibParseLoop
      rw [if_pos htE, hsp]
      show calibParseLoop s (some ch) rest
          (slotSet sl e.ctype (some (List.take (8 * ch) (List.drop n0 s))))
          (OffV.num (n0 + 8 * ch)) = _
      rw [ih (slotSet sl e.ctype (some ((s.drop n0).take (8 * ch)))) (n0 + 8 * ch)
        (fun x hx => htypes x (List.mem_cons_of_mem e hx))
        (by rw [List.length_cons, hmul] at hlen; omega)]
      unfold calibRouteSpec
      rw [show n0 + 8 * ch * (e :: rest).length
          = n0 + 8 * ch + 8 * ch * rest.length by
        rw [List.length_cons, hmul]; omega]
      cases rest <;> rfl

/-- C6: on write, the calibration loop emits exactly one spectrum block
per calibration-header entry, in header order, each block drawn from the
typed slot (Absolute=0, Base=1, Lamp=2, FiberOptic=3) matching the
entry's type; on read, the blocks are routed back to the slots by each
entry's type in header order (`calibRouteSpec`); and a later assignment
to the same typed slot overwrites the earlier one. -/
theorem c6_calibration_pairing :
    (∀ (ch : Nat) (series : List CalEntry) (sl : CalSlots),
      (∀ e ∈ series, e.ctype = 0 ∨ e.ctype = 1 ∨ e.ctype = 2 ∨ e.ctype = 3) →
      (∀ e ∈ series, (slotGet sl e.ctype).map List.length = some (8 * ch)) →
      ∃ l, calibEmit ch series.length series sl = some l
        ∧ l.length = series.length
        ∧ ∀ j, j < series.length →
            l.get? j = (series.get? j).bind (fun e => slotGet sl e.ctype))
  ∧ (∀ (s : List Nat) (ch : Nat) (entries : List CalEntry) (n0 : Nat),
      0 < ch →
      (∀ e ∈ entries, e.ctype = 0 ∨ e.ctype = 1 ∨ e.ctype = 2 ∨ e.ctype = 3) →
      n0 + 8 * ch * entries.length ≤ s.length →
      calibParseLoop s (some ch) entries emptySlots (OffV.num n0)
        = (calibRouteSpec s ch entries emptySlots n0,
           OffV.num (n0 + 8 * ch * entries.length)))
  ∧ (∀ (sl : CalSlots) (t : Int) (u v : Option (List Nat)),
      slotSet (slotSet sl t u) t v = slotSet sl t v) := by
  refine ⟨?_, ?_, ?_⟩
  · intro ch series sl htypes hslots
    have hh : ∀ i, i < series.length → ∃ e b, series.get? (0 + i) = some e
        ∧ (e.ctype = 0 ∨ e.ctype = 1 ∨ e.ctype = 2 ∨ e.ctype = 3)
        ∧ slotGet sl e.ctype = some b ∧ b.length = 8 * ch := by
      intro i hi
      have hg : series.get? (0 + i) = some (series.get ⟨i, hi⟩) := by
        rw [Nat.zero_add]; exact List.get?_eq_get hi
      have hm : series.get ⟨i, hi⟩ ∈ series := List.get_mem _ _ _
      obtain ⟨b, hb, hbl⟩ := Option.map_eq_some'.mp (hslots _ hm)
      exact ⟨_, b, hg, htypes _ hm, hb, hbl⟩
    obtain ⟨l, hfold, hlen, hget⟩ :=
      calibEmit_go ch series sl series.length 0 [] hh
    refine ⟨l, ?_, hlen, fun j hj => by
      have := hget j hj
      rwa [Nat.zero_add] at this⟩
    unfold calibEmit
    rw [List.range_eq_range', hfold]
    simp
  · intro s ch entries n0 hch htypes hlen
    exact calibParseLoop_spec s ch hch entries emptySlots n0 htypes hlen
  · intro sl t u v
    unfold slotSet
    split_ifs <;> rfl

/-- A three-entry calibration header whose first and third entries share
type 1 (Base). -/
def series6 : List CalEntry :=
  [⟨1, [], 10, 1, 1⟩, ⟨2, [], 10, 1, 1⟩, ⟨1, [], 10, 1, 1⟩]

/-- Slots populated for types 1 and 2 with single-channel blocks. -/
def sl6 : CalSlots :=
  ⟨none, some [11, 12, 13, 14, 15, 16, 17, 18],
   some [21, 22, 23, 24, 25, 26, 27, 28], none⟩

/-- A 24-byte calibration stream: three single-channel blocks. -/
def stream6 : List Nat := List.range 24

theorem c6_calibration_pairing_witness :
    (∃ l, calibEmit 1 series6.length series6 sl6 = some l
        ∧ l.length = series6.length
        ∧ ∀ j, j < series6.length →
            l.get? j = (series6.get? j).bind (fun e => slotGet sl6 e.ctype))
  ∧ calibParseLoop stream6 (some 1) series6 emptySlots (OffV.num 0)
      = (calibRouteSpec stream6 1 series6 emptySlots 0,
         OffV.num (0 + 8 * 1 * series6.length))
  ∧ slotSet (slotSet emptySlots 1 (some [1])) 1 (some [2])
      = slotSet emptySlots 1 (some [2]) := by
  obtain ⟨hA, hB, hC⟩ := c6_calibration_pairing
  exact ⟨hA 1 series6 sl6 (by decide) (by decide),
         hB stream6 1 series6 0 (by decide) (by decide) (by decide),
         hC emptySlots 1 (some [1]) (some [2])⟩

theorem c7_metadata_block_size_witness :
    (∃ bs, wrap_metadata mdOfF1 = some bs ∧ bs.length = 481)
    ∧ (∃ m, parse_metadata fileV1 3 = some (m, 3 + 481)) := by
  obtain ⟨hW, hP⟩ := c7_metadata_block_size
  constructor
  · cases hbs : wrap_metadata mdOfF1 with
    | none => exact absurd hbs (by decide)
    | some bs => exact ⟨bs, rfl, hW mdOfF1 bs hbs⟩
  · cases hp : parse_metadata fileV1 3 with
    | none =>
        have hs : (parse_metadata fileV1 3).isSome = true := by decide
        rw [hp] at hs
        cases hs
    | some pr =>
        obtain ⟨m, off2⟩ := pr
        have h2 : off2 = 3 + 481 := hP fileV1 3 m off2 hp
        exact ⟨m, by rw [← h2]⟩
